import Mathlib

/-!
Verification development for the Fantasy Grounds character-sheet converter
(`server.js`).  The parsed-XML value space is modelled by `Tree`; the helper
functions (`safeGet`, `escapeHtml`, `formatModifier`, `getProficiencyBonus`),
the field extraction blocks of `generateCharacterHTML`, the HTML renderer and
the filename derivation of the upload route are translated definition by
definition from the JavaScript source.
-/

set_option maxRecDepth 16384

namespace FGU

/-- The value space of the parsed XML document (`xml2js` output): a JS value
reachable from the parse result is a string, an array, or a plain object;
`undefined` models JS `undefined` as produced by a failed property read. -/
inductive Tree where
  | undefined : Tree
  | str : String → Tree
  | seq : List Tree → Tree
  | map : List (String × Tree) → Tree
deriving Repr

/-- JS truthiness of a `Tree` value: among the values in our space only
`undefined` and the empty string are falsy (arrays and objects are always
truthy, even when empty). -/
def truthy : Tree → Bool
  | .undefined => false
  | .str s => s ≠ ""
  | .seq _ => true
  | .map _ => true

/-- `typeof v === 'object'` for the values in our space (strings and
`undefined` are not objects; arrays and plain objects are). -/
def isObject : Tree → Bool
  | .seq _ => true
  | .map _ => true
  | _ => false

/-- Is `pre` a prefix of `l`? -/
def isPre : List Char → List Char → Bool
  | [], _ => true
  | _ :: _, [] => false
  | a :: as, b :: bs => a = b && isPre as bs

/-- Does `l` contain `sub` as a contiguous run? -/
def hasSub (l sub : List Char) : Bool :=
  match l with
  | [] => isPre sub []
  | _ :: t => isPre sub l || hasSub t sub

/-- Value of a list of decimal digits. -/
def decDigitsVal (l : List Char) : Nat :=
  l.foldl (fun acc c => acc * 10 + (c.toNat - '0'.toNat)) 0

/-- `String.prototype.split` with a one-character separator, as in
`path.split('.')`: every occurrence cuts, empty segments are kept, and the
empty string yields `['']`. -/
def splitChars (sep : Char) : List Char → List (List Char)
  | [] => [[]]
  | c :: t =>
    if c = sep then [] :: splitChars sep t
    else
      match splitChars sep t with
      | h :: r => (c :: h) :: r
      | [] => [[c]]

/-- `path.split('.')`. -/
def jsSplitDot (s : String) : List String :=
  (splitChars '.' s.data).map String.mk

/-- First binding of a key in an object's own properties. -/
def lookupMap (l : List (String × Tree)) (k : String) : Option Tree :=
  (l.find? (fun p => p.1 = k)).map (fun p => p.2)

/-- A canonical array-index string: nonempty, all digits, no leading zero
(except `"0"` itself).  JS `'k' in arr` holds only for such `k` below the
array length (`'00' in [x]` is false). -/
def canonIndex (k : String) : Option Nat :=
  if k ≠ "" ∧ k.data.all Char.isDigit ∧ (k = "0" ∨ k.data.head? ≠ some '0') then
    some (decDigitsVal k.data)
  else none

/-- JS property read `t[k]` restricted to the data properties of our value
space; an absent property reads as `undefined`.  (Inherited prototype
properties such as `toString` and exotic properties such as `length` are host
artifacts outside the parsed-tree data model and are not modelled.) -/
def getProp (t : Tree) (k : String) : Tree :=
  match t with
  | .map l => match lookupMap l k with | some v => v | none => .undefined
  | .seq l =>
    match canonIndex k with
    | some i => match l.get? i with | some v => v | none => .undefined
    | none => .undefined
  | .str s =>
    match canonIndex k with
    | some i => match s.data.get? i with | some c => .str (String.mk [c]) | none => .undefined
    | none => .undefined
  | .undefined => .undefined

/-- `key in t`: own-property test used by `safeGet`'s walk guard. -/
def hasProp (t : Tree) (k : String) : Bool :=
  match t with
  | .map l => (lookupMap l k).isSome
  | .seq l => match canonIndex k with | some i => i < l.length | none => false
  | _ => false

/-- One step of `safeGet`'s walk: the source guard
`result && typeof result === 'object' && key in result` followed by
`result = result[key]`; a failed guard is `none` (the source returns the
default there). -/
def stepGet (t : Tree) (k : String) : Option Tree :=
  if truthy t && isObject t then
    if hasProp t k then some (getProp t k) else none
  else none

/-- The key-by-key walk of `safeGet` (`for (const key of keys) ...`):
`none` as soon as some segment is absent at its step. -/
def walkKeys : Tree → List String → Option Tree
  | t, [] => some t
  | t, k :: ks =>
    match stepGet t k with
    | some t2 => walkKeys t2 ks
    | none => none

/-- `while (Array.isArray(result) && result.length === 1) result = result[0]`. -/
def unwrap : Tree → Tree
  | .seq [t] => unwrap t
  | t => t

/-- The tail of `safeGet` after the walk: unwrap single-element arrays, then
return a text-wrapper's `_` or `$t` payload (with no default fallback, as in
the source), else `result || defaultValue`. -/
def finish (r : Tree) (d : Tree) : Tree :=
  let r := unwrap r
  match r with
  | .map l =>
    match lookupMap l "_" with
    | some v => v
    | none =>
      match lookupMap l "$t" with
      | some v => v
      | none => if truthy (.map l) then .map l else d
  | r => if truthy r then r else d

/-- `safeGet` on a pre-split key list. -/
def safeGetKeys (t : Tree) (keys : List String) (d : Tree) : Tree :=
  match walkKeys t keys with
  | some r => finish r d
  | none => d

/-- `safeGet(obj, path, defaultValue = '')` from `server.js` (the identical
copy in `test_generation.js` is the same function). -/
def safeGet (t : Tree) (path : String) (d : Tree := .str "") : Tree :=
  safeGetKeys t (jsSplitDot path) d

/-- Exception-explicit rendering of `safeGet`'s walk: the only operation in
the body that can throw in JS is `key in result` on a non-object, and it sits
behind the short-circuiting guard `result && typeof result === 'object'`.
`inOpE` makes the hazard explicit. -/
def inOpE (t : Tree) (k : String) : Except String Bool :=
  match t with
  | .map _ => .ok (hasProp t k)
  | .seq _ => .ok (hasProp t k)
  | _ => .error "TypeError: cannot use in operator on a non-object"

/-- The walk with the throw hazard explicit: the guard is evaluated first and
`in` is only reached on truthy objects, exactly as in the source. -/
def walkKeysE : Tree → List String → Except String (Option Tree)
  | t, [] => .ok (some t)
  | t, k :: ks =>
    if truthy t && isObject t then
      match inOpE t k with
      | .error e => .error e
      | .ok true => walkKeysE (getProp t k) ks
      | .ok false => .ok none
    else .ok none

/-- The tail of `safeGet` with its throw hazard explicit: the wrapper lookup
`'_' in result` / `'$t' in result` is also an `in` operation, and it too sits
behind a `result && typeof result === 'object'` guard. -/
def finishE (r d : Tree) : Except String Tree :=
  let r := unwrap r
  if truthy r && isObject r then
    match inOpE r "_" with
    | .error e => .error e
    | .ok true => .ok (getProp r "_")
    | .ok false =>
      match inOpE r "$t" with
      | .error e => .error e
      | .ok true => .ok (getProp r "$t")
      | .ok false => .ok (if truthy r then r else d)
  else .ok (if truthy r then r else d)

/-- `safeGet` with both throw hazards explicit. -/
def safeGetE (t : Tree) (path : String) (d : Tree) : Except String Tree :=
  match walkKeysE t (jsSplitDot path) with
  | .error e => .error e
  | .ok none => .ok d
  | .ok (some r) => finishE r d

/-! ## JS string and number primitives used by the pipeline -/

/-- The whitespace characters stripped by JS `String.prototype.trim` and
skipped by `parseInt` (the ASCII portion, which is all this data contains). -/
def jsWS (c : Char) : Bool :=
  c = ' ' || c = '\t' || c = '\n' || c = '\r' || c = '\x0b' || c = '\x0c'

/-- `String.prototype.trim`. -/
def jsTrim (s : String) : String :=
  String.mk (((s.data.dropWhile jsWS).reverse.dropWhile jsWS).reverse)

/-- `String(v)` for the values of our space: strings unchanged, arrays join
their stringified elements with `","` (`undefined` elements join as the empty
string), plain objects stringify to `"[object Object]"`.  (`xml2js` never
nests an array directly inside an array, so that case cannot arise and is
given a placeholder form.) -/
def jsToString : Tree → String
  | .undefined => "undefined"
  | .str s => s
  | .seq l => String.intercalate "," (l.map fun t =>
      match t with
      | .undefined => ""
      | .str s => s
      | .seq _ => "[array]"
      | .map _ => "[object Object]")
  | .map _ => "[object Object]"

/-- `String.prototype.toLowerCase` (ASCII case mapping suffices here). -/
def jsToLower (s : String) : String := String.mk (s.data.map Char.toLower)

/-- `String.prototype.includes`. -/
def jsIncludes (s sub : String) : Bool := hasSub s.data sub.data

/-- Fuel-driven split on a (nonempty) separator run; the fuel is the input
length, which bounds the number of steps. -/
def splitSubAux (sep : List Char) : Nat → List Char → List (List Char)
  | _, [] => [[]]
  | 0, l => [l]
  | fuel + 1, c :: t =>
    if sep.isEmpty = false && isPre sep (c :: t) then
      [] :: splitSubAux sep fuel ((c :: t).drop sep.length)
    else
      match splitSubAux sep fuel t with
      | h :: r => (c :: h) :: r
      | [] => [[c]]

/-- `String.prototype.split` with a multi-character separator string, as in
`description.split('\n\n')`. -/
def jsSplitStr (s sep : String) : List String :=
  (splitSubAux sep.data s.data.length s.data).map String.mk

/-- `String.prototype.startsWith`. -/
def jsStartsWith (s p : String) : Bool := isPre p.data s.data

/-- Hex digit predicate and value. -/
def isHexDigit (c : Char) : Bool :=
  c.isDigit || ('a' ≤ c && c ≤ 'f') || ('A' ≤ c && c ≤ 'F')

/-- Value of a list of hex digits. -/
def hexDigitsVal (l : List Char) : Nat :=
  l.foldl (fun acc c =>
    acc * 16 +
      (if c.isDigit then c.toNat - '0'.toNat
       else if 'a' ≤ c && c ≤ 'f' then c.toNat - 'a'.toNat + 10
       else c.toNat - 'A'.toNat + 10)) 0

/-- `parseInt(s)` (radix auto-detected): skip leading whitespace, read an
optional sign, then the longest prefix of decimal digits — or of hex digits
after a `0x`/`0X` prefix; no digits means `NaN`, modelled as `none`. -/
def parseIntJS (s : String) : Option Int :=
  let l := s.data.dropWhile jsWS
  let (sign, l) : Int × List Char :=
    match l with
    | '-' :: t => (-1, t)
    | '+' :: t => (1, t)
    | l => (1, l)
  match l with
  | '0' :: x :: t =>
    if x = 'x' || x = 'X' then
      let ds := t.takeWhile isHexDigit
      if ds = [] then none else some (sign * (hexDigitsVal ds : Int))
    else
      let ds := (('0' :: x :: t).takeWhile Char.isDigit)
      if ds = [] then none else some (sign * (decDigitsVal ds : Int))
  | l =>
    let ds := l.takeWhile Char.isDigit
    if ds = [] then none else some (sign * (decDigitsVal ds : Int))

/-- One global single-character replacement,
`s.replace(/<c>/g, rep)` (each of `escapeHtml`'s five patterns is a single
character). -/
def replaceChar (s : String) (c : Char) (rep : String) : String :=
  String.mk (s.data.foldr (fun ch acc => if ch = c then rep.data ++ acc else ch :: acc) [])

/-- `escapeHtml(text)`: falsy input gives `''`; otherwise the five special
characters are replaced in source order, `&` first. -/
def escapeHtml (t : Tree) : String :=
  if truthy t = false then "" else
    replaceChar (replaceChar (replaceChar (replaceChar (replaceChar
      (jsToString t) '&' "&amp;") '<' "&lt;") '>' "&gt;") '\"' "&quot;") '\x27' "&#039;"

/-- `formatModifier(value)` on a string argument.  `parseInt` never throws in
JS, so the `catch` branch of the source is dead: a non-numeric argument makes
`val` `NaN`, `NaN >= 0` is false, and the function returns `String(NaN)`,
the string `"NaN"`. -/
def formatModifier (v : String) : String :=
  match parseIntJS v with
  | some n => if 0 ≤ n then "+" ++ toString n else toString n
  | none => "NaN"

/-- `formatModifier` applied to a `Tree` value (the argument of `parseInt`
is first converted to a string). -/
def formatModifierT (t : Tree) : String := formatModifier (jsToString t)

/-- `formatModifier` applied to a JS Number: `parseInt(String(n))` is `n` for
the integer values this pipeline produces, and `NaN` for `NaN` (`none`). -/
def formatModifierNum (o : Option Int) : String :=
  match o with
  | some n => if 0 ≤ n then "+" ++ toString n else toString n
  | none => "NaN"

/-- `getProficiencyBonus(level)` on a string argument.  As with
`formatModifier`, the `catch` branch is dead: a non-numeric argument makes
`lvl` `NaN` and `2 + Math.floor((NaN - 1) / 4)` is `NaN`, modelled as `none`.
For a parsed integer, `Math.floor((lvl - 1) / 4)` is floor division. -/
def getProficiencyBonus (level : String) : Option Int :=
  match parseIntJS level with
  | some n => some (2 + Int.fdiv (n - 1) 4)
  | none => none

/-- `getProficiencyBonus` applied to the JS Number `totalLevel` computed by
`generateCharacterHTML` (always an integer, for which
`parseInt(String(n)) = n`). -/
def getProficiencyBonusNum (n : Int) : Int := 2 + Int.fdiv (n - 1) 4

/-! ## `localeCompare` and the array sort

`String.prototype.localeCompare()` with no arguments collates under the
default locale (ICU root collation in a stock Node build).  Restricted to the
character sets appearing in this data, that collation compares the two
strings at primary strength — letters by their lowercase form, all other
characters by code point — and breaks full-string primary ties at tertiary
strength, where a lowercase letter precedes its uppercase form; a strict
prefix precedes the longer string.  (In particular the comparison is NOT the
code-point order of JS `<`: `'a'.localeCompare('B') < 0` although
`'B' < 'a'` as code points.) -/

/-- Primary collation weight of a character. -/
def primWeight (c : Char) : Nat := c.toLower.toNat

/-- Tertiary (case) weight of a character: lowercase before uppercase. -/
def caseWeight (c : Char) : Nat := if c.isUpper then 1 else 0

/-- Lexicographic comparison of two weight lists. -/
def lexNat : List Nat → List Nat → Ordering
  | [], [] => .eq
  | [], _ :: _ => .lt
  | _ :: _, [] => .gt
  | a :: as, b :: bs =>
    if a < b then .lt else if b < a then .gt else lexNat as bs

/-- The sign of `a.localeCompare(b)` under the default locale. -/
def localeCompare (a b : String) : Int :=
  match lexNat (a.data.map primWeight) (b.data.map primWeight) with
  | .lt => -1
  | .gt => 1
  | .eq =>
    match lexNat (a.data.map caseWeight) (b.data.map caseWeight) with
    | .lt => -1
    | .gt => 1
    | .eq => 0

/-- Insertion of an element into a list ordered by an integer comparator,
placed after every element it does not strictly precede — the insertion step
of a stable comparison sort, as `Array.prototype.sort` is specified to be. -/
def insertCmp (cmp : α → α → Int) (x : α) : List α → List α
  | [] => [x]
  | y :: ys => if cmp x y < 0 then x :: y :: ys else y :: insertCmp cmp x ys

/-- Stable comparison sort (`Array.prototype.sort(cmp)`). -/
def sortByCmp (cmp : α → α → Int) (l : List α) : List α :=
  l.foldl (fun acc x => insertCmp cmp x acc) []

/-- Adjacent-pairs sortedness with respect to a comparator. -/
abbrev AdjSorted (cmp : α → α → Int) (l : List α) : Prop :=
  List.Chain' (fun a b => cmp a b ≤ 0) l

/-! ## Field extraction (`generateCharacterHTML`, lines 81–360)

Each block of the extraction phase of `generateCharacterHTML` becomes one
definition over the `char` subtree.  `Object.keys` enumerates canonical
integer keys in ascending order first, then the remaining own keys in
insertion order; the keys iterated here (`id-00001`, …) are never integer
keys, so this is the insertion order of the association list. -/

/-- `Object.keys(t)` for the values of our space. -/
def objectKeys (t : Tree) : List String :=
  match t with
  | .map l =>
    let ks := l.map Prod.fst
    (sortByCmp (fun a b =>
      match canonIndex a, canonIndex b with
      | some i, some j => (i : Int) - (j : Int)
      | some _, none => -1
      | none, some _ => 1
      | none, none => 0) (ks.filter fun k => (canonIndex k).isSome)) ++
      ks.filter (fun k => (canonIndex k).isSome = false)
  | .seq l => (List.range l.length).map toString
  | .str s => (List.range s.data.length).map toString
  | .undefined => []

/-- The entry values iterated by the repeated pattern
`Object.keys(data).forEach(key => { if (key.startsWith('id-')) { const e = data[key][0]; ... } })`. -/
def idEntries (data : Tree) : List Tree :=
  ((objectKeys data).filter (fun k => jsStartsWith k "id-")).map
    (fun k => getProp (getProp data k) "0")

/-- One extracted class record (lines 97–109): pushed only when the name is
truthy; the level and specialization are kept as read. -/
structure ClassInfo where
  name : Tree
  level : Tree
  specialization : Tree

/-- `classes.0` subtree. -/
def classesDataOf (char : Tree) : Tree := safeGet char "classes.0" (.map [])

/-- `totalLevel`: the sum of `parseInt(classLevel) || 0` over every `id-`
entry (accumulated before the truthy-name check, so unnamed entries still
count). -/
def totalLevelOf (char : Tree) : Int :=
  (idEntries (classesDataOf char)).foldl
    (fun acc cls =>
      acc + ((parseIntJS (jsToString (safeGet cls "level.0" (.str "")))).getD 0))
    0

/-- `classesInfo`: the named class records in document order. -/
def classesInfoOf (char : Tree) : List ClassInfo :=
  (idEntries (classesDataOf char)).filterMap fun cls =>
    let className := safeGet cls "name.0" (.str "")
    if truthy className then
      some { name := className,
             level := safeGet cls "level.0" (.str ""),
             specialization := safeGet cls "specialization.0" (.str "") }
    else none

/-- `profBonus = getProficiencyBonus(totalLevel)` (line 111); `totalLevel`
is an integer Number, for which the parse inside is the identity. -/
def profBonusOf (char : Tree) : Int := getProficiencyBonusNum (totalLevelOf char)

/-- One extracted ability record (lines 117–127). -/
structure AbilityInfo where
  score : Tree
  bonus : Tree
  save : Tree
  saveprof : Bool

/-- JS strict equality `t === s` of a value against a string literal. -/
def isStrEq (t : Tree) (s : String) : Bool :=
  match t with
  | .str x => x = s
  | _ => false

/-- `safeGet(...) === '1'`: strict equality against the string `'1'`. -/
def isStrOne (t : Tree) : Bool := isStrEq t "1"

/-- The fixed ability-name list of line 115. -/
def abilityNames : List String :=
  ["strength", "dexterity", "constitution", "intelligence", "wisdom", "charisma"]

/-- `abilities[abilName]` after the extraction loop: present only when the
`abilities.0.<name>.0` subtree is truthy. -/
def abilityOf (char : Tree) (abilName : String) : Option AbilityInfo :=
  let abil := safeGet char ("abilities.0." ++ abilName ++ ".0") (.str "")
  if truthy abil then
    some { score := safeGet abil "score.0" (.str ""),
           bonus := safeGet abil "bonus.0" (.str ""),
           save := safeGet abil "save.0" (.str ""),
           saveprof := isStrOne (safeGet abil "saveprof.0" (.str "")) }
  else none

/-- The spellcasting-ability fold (lines 130–142): each class name is
lowercased and substring-matched; a match overwrites the accumulator, a
non-match leaves it, so the last matching class in list order wins. -/
def spellcastingAbilityOf (char : Tree) : Option String :=
  (classesInfoOf char).foldl
    (fun sa cls =>
      let className := jsToLower (jsToString cls.name)
      if jsIncludes className "wizard" then some "intelligence"
      else if jsIncludes className "druid" || jsIncludes className "cleric" ||
          jsIncludes className "ranger" then some "wisdom"
      else if jsIncludes className "paladin" || jsIncludes className "sorcerer" ||
          jsIncludes className "bard" || jsIncludes className "warlock" then
        some "charisma"
      else sa)
    none

/-- `spellcastingMod` (lines 131, 144–146): `parseInt(bonus) || 0` of the
resolved ability's stored bonus; `0` when no class matched or the resolved
ability was not extracted. -/
def spellcastingModOf (char : Tree) : Int :=
  match spellcastingAbilityOf char with
  | some a =>
    match abilityOf char a with
    | some ai => (parseIntJS (jsToString ai.bonus)).getD 0
    | none => 0
  | none => 0

/-- `spellSaveDC = 8 + profBonus + spellcastingMod` (line 149). -/
def spellSaveDCOf (char : Tree) : Int :=
  8 + profBonusOf char + spellcastingModOf char

/-- `spellAttackBonus = profBonus + spellcastingMod` (line 150). -/
def spellAttackBonusOf (char : Tree) : Int :=
  profBonusOf char + spellcastingModOf char

/-- `strMod = parseInt(abilities.strength?.bonus || 0)` (line 153): `0` when
the ability or its bonus is absent/falsy, otherwise the parse of the stored
bonus — which is `NaN` (`none`) when that string does not parse. -/
def strModOf (char : Tree) : Option Int :=
  match abilityOf char "strength" with
  | some ai => if truthy ai.bonus then parseIntJS (jsToString ai.bonus) else some 0
  | none => some 0

/-- `dexMod` (line 154): extracted exactly like `strMod` but never used in
the melee calculation. -/
def dexModOf (char : Tree) : Option Int :=
  match abilityOf char "dexterity" with
  | some ai => if truthy ai.bonus then parseIntJS (jsToString ai.bonus) else some 0
  | none => some 0

/-- `meleeAttackBonus = strMod + profBonus` (line 155), `NaN`-propagating. -/
def meleeAttackBonusOf (char : Tree) : Option Int :=
  (strModOf char).map (fun s => s + profBonusOf char)

/-- HP block (lines 157–161). -/
def hpOf (char : Tree) : Tree := safeGet char "hp.0" (.map [])

def hpTotalOf (char : Tree) : Tree := safeGet (hpOf char) "total.0" (.str "0")

def hpWoundsOf (char : Tree) : Tree := safeGet (hpOf char) "wounds.0" (.str "0")

def hpTempOf (char : Tree) : Tree := safeGet (hpOf char) "temporary.0" (.str "0")

/-- `ac` (line 164). -/
def acOf (char : Tree) : Tree := safeGet char "defenses.0.ac.0.total.0" (.str "10")

/-- `speed` (line 167). -/
def speedOf (char : Tree) : Tree := safeGet char "speed.0.total.0" (.str "30")

/-- `initiative` (lines 170–173): the extracted total, replaced by the
dexterity bonus when falsy and dexterity was extracted. -/
def initiativeOf (char : Tree) : Tree :=
  let ini := safeGet char "initiative.0.total.0" (.str "")
  if truthy ini = false then
    match abilityOf char "dexterity" with
    | some ai => ai.bonus
    | none => ini
  else ini

/-- One extracted skill record (lines 178–188). -/
structure SkillInfo where
  name : Tree
  total : Tree
  prof : Bool
  stat : Tree

/-- The skill list before sorting (document order). -/
def skillsRawOf (char : Tree) : List SkillInfo :=
  (idEntries (safeGet char "skilllist.0" (.map []))).map fun skill =>
    { name := safeGet skill "name.0" (.str ""),
      total := safeGet skill "total.0" (.str ""),
      prof := isStrOne (safeGet skill "prof.0" (.str "")),
      stat := safeGet skill "stat.0" (.str "") }

/-- The skill sort comparator of line 189:
`(a.name || '').localeCompare(b.name)` (both sides end up stringified; a
falsy name compares as the empty string, which also is its string form). -/
def skillCmp (a b : SkillInfo) : Int :=
  localeCompare (jsToString a.name) (jsToString b.name)

/-- `skills` after `skills.sort(...)` (line 189). -/
def skillsOf (char : Tree) : List SkillInfo :=
  sortByCmp skillCmp (skillsRawOf char)

/-- The paragraph mapper shared by the features, feats and spells description
extraction (lines 202–206 etc.): a plain string is trimmed; an object with a
truthy `_` has its text trimmed; anything else contributes `''`. -/
def paraText (p : Tree) : String :=
  match p with
  | .str s => jsTrim s
  | _ =>
    if truthy p && truthy (getProp p "_") then jsTrim (jsToString (getProp p "_"))
    else ""

/-- The inventory paragraph mapper (lines 255–264), which additionally turns
a paragraph whose `b` child has a truthy first element into that bold lead-in
concatenated with the (here always empty, since `_` was falsy) rest text. -/
def paraTextInv (p : Tree) : String :=
  match p with
  | .str s => jsTrim s
  | _ =>
    if truthy p && truthy (getProp p "_") then jsTrim (jsToString (getProp p "_"))
    else if truthy p && truthy (getProp p "b") &&
        truthy (getProp (getProp p "b") "0") then
      let boldText := getProp (getProp p "b") "0"
      let restText :=
        if truthy (getProp p "_") then jsTrim (jsToString (getProp p "_")) else ""
      jsToString boldText ++ restText
    else ""

/-- The description assembly shared by features, feats, inventory and spells:
`<field> ? <field>[0] : null`, then, when that and its `p` are truthy and `p`
is the array `xml2js` produces, map the paragraphs, drop the empty ones and
join with a blank line.  (A truthy non-array `p` would make the `.map` call
throw a request-level TypeError — the pipeline-level failure mode of the
design — and yields no description here.) -/
def descriptionFrom (entry : Tree) (field : String) (mapper : Tree → String) :
    String :=
  let textObj : Tree :=
    if truthy (getProp entry field) then getProp (getProp entry field) "0"
    else .undefined
  if truthy textObj && truthy (getProp textObj "p") then
    match getProp textObj "p" with
    | .seq ps => String.intercalate "\n\n" ((ps.map mapper).filter (fun s => s ≠ ""))
    | _ => ""
  else ""

/-- One extracted feature record (lines 192–215). -/
structure FeatureInfo where
  name : Tree
  level : Tree
  description : String

def featuresOf (char : Tree) : List FeatureInfo :=
  (idEntries (safeGet char "featurelist.0" (.map []))).map fun feature =>
    { name := safeGet feature "name.0" (.str ""),
      level := safeGet feature "level.0" (.str ""),
      description := descriptionFrom feature "text" paraText }

/-- One extracted feat record (lines 218–242). -/
structure FeatInfo where
  name : Tree
  category : Tree
  level : Tree
  description : String

def featsOf (char : Tree) : List FeatInfo :=
  (idEntries (safeGet char "featlist.0" (.map []))).map fun feat =>
    { name := safeGet feat "name.0" (.str ""),
      category := safeGet feat "category.0" (.str ""),
      level := safeGet feat "level.0" (.str ""),
      description := descriptionFrom feat "text" paraText }

/-- One extracted inventory record (lines 245–275). -/
structure ItemInfo where
  name : Tree
  count : Tree
  cost : Tree
  description : String

def inventoryOf (char : Tree) : List ItemInfo :=
  (idEntries (safeGet char "inventorylist.0" (.map []))).map fun item =>
    { name := safeGet item "name.0" (.str ""),
      count := safeGet item "count.0" (.str "1"),
      cost := safeGet item "cost.0" (.str ""),
      description := descriptionFrom item "description" paraTextInv }

/-- The coins object (lines 278–289): `coins[coinName] = coinAmount` for each
truthy name, the property key being the stringified name and a repeated name
overwriting the earlier amount. -/
def coinsOf (char : Tree) : List (String × Tree) :=
  (idEntries (safeGet char "coins.0" (.map []))).foldl
    (fun acc coin =>
      let coinName := safeGet coin "name.0" (.str "")
      let coinAmount := safeGet coin "amount.0" (.str "0")
      if truthy coinName then
        (acc.filter (fun p => p.1 ≠ jsToString coinName)) ++
          [(jsToString coinName, coinAmount)]
      else acc)
    []

/-- `coins[coinType] || '0'` (line 904). -/
def coinValue (coins : List (String × Tree)) (coinType : String) : Tree :=
  match lookupMap coins coinType with
  | some v => if truthy v then v else .str "0"
  | none => .str "0"

/-- Spell slots (lines 292–304): for levels 1–9, when
`powermeta[spellslots<i>]` and its `[0]` are truthy, read `max`/`used` and
keep the level when `max` is not strictly the string `'0'`. -/
def spellSlotsOf (char : Tree) : List (Nat × Tree × Tree) :=
  let powermeta := safeGet char "powermeta.0" (.map [])
  (List.range 9).filterMap fun i0 =>
    let i := i0 + 1
    let slotKey := "spellslots" ++ toString i
    if truthy (getProp powermeta slotKey) &&
        truthy (getProp (getProp powermeta slotKey) "0") then
      let slot := getProp (getProp powermeta slotKey) "0"
      let maxSlots := safeGet slot "max.0" (.str "0")
      let usedSlots := safeGet slot "used.0" (.str "0")
      -- `maxSlots !== '0'`: strict inequality against the string `'0'`
      if isStrEq maxSlots "0" then none
      else some (i, maxSlots, usedSlots)
    else none

/-- `powers.0` (line 308), shared by the sorcery-point and spell loops. -/
def powersDataOf (char : Tree) : Tree := safeGet char "powers.0" (.map [])

/-- Sorcery points (lines 307–321): the last `id-` power named exactly
`Sorcery Points` whose `prepared` max is not the string `'0'`. -/
def sorceryPointsOf (char : Tree) : Option (Tree × Tree) :=
  (idEntries (powersDataOf char)).foldl
    (fun acc power =>
      let powerName := safeGet power "name.0" (.str "")
      if isStrEq powerName "Sorcery Points" then
        let maxPts := safeGet power "prepared.0" (.str "0")
        let usedPts := safeGet power "locked.0" (.str "0")
        if isStrEq maxPts "0" then acc
        else some (maxPts, usedPts)
      else acc)
    none

/-- One extracted spell record (lines 345–351). -/
structure SpellInfo where
  name : Tree
  level : Tree
  prepared : Tree
  school : Tree
  description : String

/-- Spell filter and extraction (lines 324–354): an `id-` power is a spell
when its group contains the substring `Spells` or its school is truthy, and
its level is truthy. -/
def spellsRawOf (char : Tree) : List SpellInfo :=
  (idEntries (powersDataOf char)).filterMap fun power =>
    let group := safeGet power "group.0" (.str "")
    let level := safeGet power "level.0" (.str "")
    let school := safeGet power "school.0" (.str "")
    if (jsIncludes (jsToString group) "Spells" || truthy school) && truthy level then
      some { name := safeGet power "name.0" (.str ""),
             level := level,
             prepared := safeGet power "prepared.0" (.str "0"),
             school := school,
             description := descriptionFrom power "description" paraText }
    else none

/-- The sort key of lines 356–357: `parseInt(level) || 99` — note that both
an unparsable level and the cantrip level `"0"` are falsy after the parse and
become `99`. -/
def spellLevelKey (level : Tree) : Int :=
  match parseIntJS (jsToString level) with
  | some n => if n = 0 then 99 else n
  | none => 99

/-- The spell sort comparator (lines 355–360). -/
def spellCmp (a b : SpellInfo) : Int :=
  let aLevel := spellLevelKey a.level
  let bLevel := spellLevelKey b.level
  if aLevel ≠ bLevel then aLevel - bLevel
  else localeCompare (jsToString a.name) (jsToString b.name)

/-- `spells` after `spells.sort(...)`. -/
def spellsOf (char : Tree) : List SpellInfo :=
  sortByCmp spellCmp (spellsRawOf char)

/-- The claim's wrapping device: `n` nested single-element sequences. -/
def wrapN : Nat → Tree → Tree
  | 0, t => t
  | n + 1, t => .seq [wrapN n t]

/-- The character subtree of the spec's spell-sort example:
`[{level:"1",name:"Z"}, {level:"0",name:"A"}, {level:"1",name:"A"}]`, each
entry shaped as an `id-` power in the `Spells` group. -/
def c2ExampleChar : Tree :=
  .map [("powers", .seq [.map [
    ("id-00001", .seq [.map [("group", .seq [.str "Spells"]),
      ("level", .seq [.str "1"]), ("name", .seq [.str "Z"])]]),
    ("id-00002", .seq [.map [("group", .seq [.str "Spells"]),
      ("level", .seq [.str "0"]), ("name", .seq [.str "A"])]]),
    ("id-00003", .seq [.map [("group", .seq [.str "Spells"]),
      ("level", .seq [.str "1"]), ("name", .seq [.str "A"])]])]])]

/-- A character subtree with two skills named `B` and `a` (in that document
order). -/
def c9CaseChar : Tree :=
  .map [("skilllist", .seq [.map [
    ("id-00001", .seq [.map [("name", .seq [.str "B"])]]),
    ("id-00002", .seq [.map [("name", .seq [.str "a"])]])]])]

/-- The character subtree of the spec's skill-sort example. -/
def c9ExampleChar : Tree :=
  .map [("skilllist", .seq [.map [
    ("id-00001", .seq [.map [("name", .seq [.str "Stealth"])]]),
    ("id-00002", .seq [.map [("name", .seq [.str "Acrobatics"])]])]])]

/-! ## Claim about the spellcasting inference -/

/-- The keyword rule applied to one class name by the spellcasting scan. -/
def ruleOf (n : String) : Option String :=
  let className := jsToLower n
  if jsIncludes className "wizard" then some "intelligence"
  else if jsIncludes className "druid" || jsIncludes className "cleric" ||
      jsIncludes className "ranger" then some "wisdom"
  else if jsIncludes className "paladin" || jsIncludes className "sorcerer" ||
      jsIncludes className "bard" || jsIncludes className "warlock" then
    some "charisma"
  else none

/-- A character subtree with a single level-5 Fighter class (the spec's
no-spellcaster example). -/
def fighterChar : Tree :=
  .map [("classes", .seq [.map [
    ("id-00001", .seq [.map [("name", .seq [.str "Fighter"]),
      ("level", .seq [.str "5"])]])]])]

/-! ## Claim about the suggested filename (`/generate` route, lines 1084–1096) -/

/-- The character class of the regex `[^a-zA-Z0-9 _-]` (whose matches are
deleted): a character survives iff it is an ASCII letter, digit, space,
underscore or hyphen. -/
def allowedFilenameChar (c : Char) : Bool :=
  ('a' ≤ c && c ≤ 'z') || ('A' ≤ c && c ≤ 'Z') || ('0' ≤ c && c ≤ '9') ||
  c = ' ' || c = '_' || c = '-'

/-- `String(charName).replace(/[^a-zA-Z0-9 _-]/g, '')`. -/
def stripDisallowed (s : String) : String :=
  String.mk (s.data.filter allowedFilenameChar)

/-- The filename derivation of the `/generate` route:
`charName = safeGet(result, 'root.character.0.name.0') || ''`; when truthy,
strip the disallowed characters and trim; a nonempty clean name gives
`<cleanName>.html`, anything else the fixed default `character_sheet.html`. -/
def suggestedFilename (result : Tree) : String :=
  let cn := safeGet result "root.character.0.name.0" (.str "")
  let charName := if truthy cn then cn else .str ""
  if truthy charName then
    let cleanName := jsTrim (stripDisallowed (jsToString charName))
    if cleanName ≠ "" then cleanName ++ ".html" else "character_sheet.html"
  else "character_sheet.html"

/-- A parse result whose character name element holds `name`. -/
def resultWithName (name : String) : Tree :=
  .map [("root", .map [("character", .seq [.map [
    ("name", .seq [.str name])]])])]

/-- The clean name in the spec's own words: keep the allowed characters,
then drop spaces from both ends. -/
def specCleanName (name : String) : List Char :=
  let kept := name.data.filter allowedFilenameChar
  ((kept.dropWhile (fun c => c = ' ')).reverse.dropWhile (fun c => c = ' ')).reverse

-- template literal at server.js line 363; interpolations: ["escapeHtml(name) || 'Unknown'", "escapeHtml(name) || 'Character Name'"]
def tpl363p0 : String :=
  "<!DOCTYPE html>\n<html lang=\"en\">\n<head>\n    <meta charset=\"UTF-8\">\n    <meta name=\"viewport\" content=\"width=device-width, initial-scale=1.0\">\n    <title>Character Sheet - "

def tpl363p1 : String :=
  "</title>\n    <style>\n        * \x7b margin: 0; padding: 0; box-sizing: border-box; \x7d\n        html \x7b font-size: 16px; \x7d\n        body \x7b\n            font-family: \x27Book Antiqua\x27, \x27Palatino Linotype\x27, Palatino, serif;\n            background: linear-gradient(135deg, #f5f1e8 0%, #e8ddd4 100%);\n            padding: 20px;\n            color: #2c1810;\n            line-height: 1.4;\n            min-width: 280px;\n            word-wrap: break-word;\n            overflow-x: hidden;\n        \x7d\n        .character-sheet \x7b\n            max-width: 1200px;\n            margin: 0 auto;\n            background: white;\n            border: 3px solid #8b6914;\n            border-radius: 8px;\n            box-shadow: 0 4px 20px rgba(0,0,0,0.2);\n            padding: 25px;\n            box-sizing: border-box;\n            width: 100%;\n        \x7d\n        .header \x7b\n            border-bottom: 3px solid #8b6914;\n            padding-bottom: 15px;\n            margin-bottom: 20px;\n        \x7d\n        .header h1 \x7b\n            font-size: 2.5em;\n            color: #8b6914;\n            text-align: center;\n            margin-bottom: 10px;\n            text-shadow: 2px 2px 4px rgba(0,0,0,0.1);\n        \x7d\n        .header-info \x7b\n            display: grid;\n            grid-template-columns: repeat(auto-fit, minmax(200px, 1fr));\n            gap: 10px;\n            font-size: 1.1em;\n        \x7d\n        .header-info div \x7b\n            background: #f5f1e8;\n            padding: 8px 12px;\n            border-radius: 4px;\n            border-left: 4px solid #8b6914;\n        \x7d\n        .header-info strong \x7b color: #8b6914; margin-right: 5px; \x7d\n        .page \x7b\n            background: white;\n            border: 3px solid #8b6914;\n            border-radius: 24px;\n            padding: 30px 20px;\n            margin: 30px auto;\n            max-width: 900px;\n            box-shadow: 0 4px 20px rgba(0,0,0,0.1);\n            box-sizing: border-box;\n            width: 100%;\n        \x7d\n        .page-layout \x7b\n            display: grid;\n            grid-template-columns: 250px 1fr;\n            gap: 20px;\n            margin-bottom: 20px;\n        \x7d\n        .sidebar \x7b\n            display: flex;\n            flex-direction: column;\n            gap: 5px;\n            width: 100%;\n            min-width: 0;\n        \x7d\n        .stat-box \x7b\n            background: #f5f1e8;\n            border: 1px solid #8b6914;\n            border-radius: 3px;\n            padding: 3px;\n            text-align: center;\n            margin-bottom: 4px;\n        \x7d\n        .stat-box h3 \x7b\n            color: #8b6914;\n            font-size: 0.7em;\n            margin-bottom: 2px;\n            text-transform: uppercase;\n        \x7d\n        .ability-score \x7b\n            font-size: 1.2em;\n            font-weight: bold;\n            color: #2c1810;\n            margin: 2px 0;\n        \x7d\n        .ability-modifier \x7b\n            font-size: 0.95em;\n            color: #8b6914;\n            font-weight: bold;\n            margin: 2px 0;\n        \x7d\n        .save-box \x7b font-size: 0.85em; margin-top: 5px; \x7d\n        .skill-item \x7b\n            display: flex;\n            justify-content: space-between;\n            padding: 4px 0;\n            border-bottom: 1px dotted #ccc;\n        \x7d\n        .section \x7b\n            background: #f5f1e8;\n            border: 2px solid #8b6914;\n            border-radius: 6px;\n            padding: 15px;\n        \x7d\n        .section h2 \x7b\n            color: #8b6914;\n            font-size: 1.3em;\n            margin-bottom: 12px;\n            padding-bottom: 8px;\n            border-bottom: 2px solid #8b6914;\n            text-transform: uppercase;\n            letter-spacing: 1px;\n        \x7d\n        .hp-box \x7b\n            text-align: center;\n            padding: 15px;\n            background: white;\n            border-radius: 4px;\n            margin-bottom: 10px;\n        \x7d\n        .hp-box .hp-total \x7b\n            font-size: 2em;\n            font-weight: bold;\n            color: #c12727;\n        \x7d\n        .hp-box .hp-current \x7b\n            font-size: 1.5em;\n            color: #2c1810;\n        \x7d\n        .hp-details \x7b\n            display: flex;\n            justify-content: space-around;\n            margin-top: 10px;\n            font-size: 0.9em;\n        \x7d\n        .features-list, .feats-list, .inventory-list \x7b list-style: none; \x7d\n        .features-list li, .feats-list li \x7b\n            padding: 6px 0;\n            border-bottom: 1px dotted #ccc;\n        \x7d\n        .inventory-list li \x7b\n            padding: 6px 0;\n            display: flex;\n            justify-content: space-between;\n            gap: 12px;\n            border-bottom: 1px dotted #ccc;\n        \x7d\n        .spell-slot-level \x7b\n            display: flex;\n            align-items: center;\n            gap: 6px;\n            margin-bottom: 6px;\n        \x7d\n        .spell-slot-level strong \x7b\n            min-width: 70px;\n            font-size: 0.9em;\n            color: #8b6914;\n        \x7d\n        .spell-slot-bubbles \x7b\n            display: flex;\n            gap: 4px;\n            flex-wrap: wrap;\n        \x7d\n        .coins \x7b\n            display: flex;\n            gap: 15px;\n            justify-content: center;\n            flex-wrap: wrap;\n            padding: 10px;\n        \x7d\n        .coin-item \x7b\n            text-align: center;\n            padding: 8px 15px;\n            background: white;\n            border-radius: 4px;\n            border: 1px solid #8b6914;\n        \x7d\n        .coin-item input[type=\"text\"] \x7b\n            width: 80px;\n            padding: 6px;\n            border: 1px solid #8b6914;\n            border-radius: 3px;\n            text-align: center;\n            font-size: 1.1em;\n            font-weight: bold;\n            color: #8b6914;\n            margin-top: 8px;\n        \x7d\n        .spell-level-toggle \x7b\n            background: white;\n            border: 2px solid #8b6914;\n            border-radius: 4px;\n            padding: 12px;\n            margin-bottom: 10px;\n            cursor: pointer;\n            display: flex;\n            justify-content: space-between;\n            align-items: center;\n            user-select: none;\n            transition: background-color 0.2s;\n        \x7d\n        .spell-level-toggle:hover \x7b background-color: #f5f1e8; \x7d\n        .spell-level-toggle h3 \x7b\n            color: #8b6914;\n            font-size: 1.1em;\n            margin: 0;\n        \x7d\n        .spell-level-content \x7b display: none; \x7d\n        .spell-level-content.active \x7b display: block; \x7d\n        .spell-description \x7b\n            font-size: 0.9em;\n            color: #333;\n            margin-top: 6px;\n            padding-top: 6px;\n            border-top: 1px dotted #ccc;\n        \x7d\n        .tooltip-trigger \x7b\n            position: relative;\n            cursor: help;\n            border-bottom: 1px dotted #8b6914;\n        \x7d\n        .tooltip \x7b\n            display: none;\n            position: absolute;\n            left: 0;\n            top: 100%;\n            z-index: 1000;\n            background: white;\n            border: 2px solid #8b6914;\n            border-radius: 6px;\n            padding: 12px;\n            margin-top: 5px;\n            box-shadow: 0 4px 12px rgba(0, 0, 0, 0.3);\n            max-width: 400px;\n            min-width: 300px;\n            font-size: 0.9em;\n            line-height: 1.4;\n            white-space: normal;\n        \x7d\n        .tooltip-trigger:hover .tooltip \x7b\n            display: block;\n        \x7d\n        .tooltip-title \x7b\n            font-weight: bold;\n            color: #8b6914;\n            margin-bottom: 8px;\n            padding-bottom: 6px;\n            border-bottom: 1px solid #8b6914;\n        \x7d\n        .tooltip-content \x7b\n            color: #2c1810;\n        \x7d\n        .tooltip-content p \x7b\n            margin: 6px 0;\n        \x7d\n        @media (max-width: 900px) \x7b\n            body \x7b padding: 4px; \x7d\n            .character-sheet \x7b padding: 6px; border: 2px solid #8b6914; \x7d\n            .header \x7b padding-bottom: 10px; margin-bottom: 12px; \x7d\n            .header h1 \x7b font-size: 1.4em; margin-bottom: 6px; \x7d\n            .header-info \x7b grid-template-columns: 1fr; gap: 4px; font-size: 0.9em; \x7d\n            .page-layout \x7b\n                grid-template-columns: 1fr !important;\n                gap: 10px !important;\n                margin-bottom: 15px !important;\n            \x7d\n            .sidebar \x7b\n                width: 100%;\n                flex-direction: row;\n                flex-wrap: wrap;\n                gap: 8px;\n            \x7d\n            .stat-box \x7b\n                flex: 1;\n                min-width: 90px;\n                padding: 4px;\n                margin-bottom: 0;\n            \x7d\n            .section \x7b padding: 8px; \x7d\n            .section h2 \x7b font-size: 0.95em; margin-bottom: 6px; \x7d\n            .page \x7b border: 2px solid #8b6914; padding: 10px; margin: 12px 0; border-radius: 8px; \x7d\n        \x7d\n        @media (max-width: 600px) \x7b\n            html \x7b font-size: 12px; \x7d\n            body \x7b padding: 2px; margin: 0; \x7d\n            .character-sheet \x7b padding: 4px; border: 1px solid #8b6914; margin: 0; \x7d\n            .header \x7b padding-bottom: 8px; margin-bottom: 10px; \x7d\n            .header h1 \x7b font-size: 1em; margin: 0; padding-bottom: 6px; \x7d\n            .header-info \x7b grid-template-columns: 1fr; gap: 4px; font-size: 0.85em; \x7d\n            .page \x7b border: 1px solid #8b6914; padding: 6px; margin: 8px 0; border-radius: 4px; \x7d\n            .page-layout \x7b\n                grid-template-columns: 1fr !important;\n                gap: 8px !important;\n                margin-bottom: 10px !important;\n            \x7d\n            .sidebar \x7b width: 100%; gap: 3px; \x7d\n            .stat-box \x7b padding: 2px 3px; margin-bottom: 1px; font-size: 0.8em; \x7d\n            .stat-box h3 \x7b font-size: 0.6em; margin-bottom: 1px; \x7d\n            .ability-score \x7b font-size: 1em; margin: 1px 0; \x7d\n            .section \x7b padding: 4px; \x7d\n            .section h2 \x7b font-size: 0.85em; margin-bottom: 6px; padding-bottom: 4px; \x7d\n            .spell-level-toggle \x7b flex-direction: column; gap: 6px; padding: 8px; \x7d\n            .spell-level-toggle h3 \x7b font-size: 0.85em; \x7d\n            button \x7b padding: 3px 6px !important; font-size: 0.7em !important; \x7d\n            .coin-item input[type=\"text\"] \x7b width: 60px; padding: 3px; font-size: 0.85em; \x7d\n            .hp-details \x7b flex-direction: column; gap: 6px; \x7d\n            .skill-item \x7b padding: 2px 0; font-size: 0.8em; \x7d\n        \x7d\n    </style>\n</head>\n<body>\n    <div class=\"character-sheet\">\n        <div class=\"header\">\n            <h1>"

def tpl363p2 : String :=
  "</h1>\n            <div class=\"header-info\">"

-- template literal at server.js line 695; interpolations: ['subrace']
def tpl695p0 : String :=
  " ("

def tpl695p1 : String :=
  ")"

-- template literal at server.js line 696; interpolations: ['escapeHtml(raceDisplay)']
def tpl696p0 : String :=
  "                <div><strong>Race:</strong> "

def tpl696p1 : String :=
  "</div>\n"

-- template literal at server.js line 700; interpolations: ['c.name', 'c.level']
def tpl700p0 : String :=
  ""

def tpl700p1 : String :=
  " "

def tpl700p2 : String :=
  ""

-- template literal at server.js line 701; interpolations: ['escapeHtml(classesStr)']
def tpl701p0 : String :=
  "                <div><strong>Class & Level:</strong> "

def tpl701p1 : String :=
  "</div>\n"

-- template literal at server.js line 705; interpolations: ['escapeHtml(background)']
def tpl705p0 : String :=
  "                <div><strong>Background:</strong> "

def tpl705p1 : String :=
  "</div>\n"

-- template literal at server.js line 709; interpolations: ['escapeHtml(alignment)']
def tpl709p0 : String :=
  "                <div><strong>Alignment:</strong> "

def tpl709p1 : String :=
  "</div>\n"

-- template literal at server.js line 712; interpolations: ['formatModifier(profBonus)']
def tpl712p0 : String :=
  "                <div><strong>Proficiency Bonus:</strong> "

def tpl712p1 : String :=
  "</div>\n            </div>\n        </div>\n        \n        <div class=\"page\">\n            <div class=\"page-layout\">\n                <div class=\"sidebar\">"

-- template literal at server.js line 729; interpolations: ['abilDisplay', 'escapeHtml(score)', 'formatModifier(bonus)', 'formatModifier(save)', "isProf ? '✓' : ''"]
def tpl729p0 : String :=
  "                    <div class=\"stat-box\">\n                        <h3>"

def tpl729p1 : String :=
  "</h3>\n                        <div class=\"ability-score\">"

def tpl729p2 : String :=
  "</div>\n                        <div class=\"ability-modifier\">"

def tpl729p3 : String :=
  "</div>\n                        <div class=\"save-box\">SAVE "

def tpl729p4 : String :=
  " "

def tpl729p5 : String :=
  "</div>\n                    </div>\n"

-- template literal at server.js line 738; interpolations: []
def tpl738p0 : String :=
  "                    <div class=\"stat-box\">\n                        <h3>Skills</h3>\n                        <div style=\"text-align: left; font-size: 0.85em;\">"

-- template literal at server.js line 744; interpolations: ['profIndicator', 'escapeHtml(skill.name)', 'formatModifier(skill.total)']
def tpl744p0 : String :=
  "                            <div class=\"skill-item\">\n                                <span>"

def tpl744p1 : String :=
  " "

def tpl744p2 : String :=
  "</span>\n                                <span>"

def tpl744p3 : String :=
  "</span>\n                            </div>\n"

-- template literal at server.js line 750; interpolations: ['escapeHtml(hpTotal)', 'hpWounds', 'hpTemp', 'escapeHtml(ac)', 'formatModifier(initiative)', 'escapeHtml(speed)', 'formatModifier(profBonus)', 'formatModifier(meleeAttackBonus)']
def tpl750p0 : String :=
  "                        </div>\n                    </div>\n                </div>\n                \n                <div style=\"display: grid; grid-template-columns: 1fr 1fr; gap: 15px;\">\n                    <div class=\"section\">\n                        <h2>Hit Points</h2>\n                        <div class=\"hp-box\">\n                            <div class=\"hp-total\">"

def tpl750p1 : String :=
  "</div>\n                            <div class=\"hp-current\">Current HP</div>\n                            <div class=\"hp-details\">\n                                <div style=\"display: flex; align-items: center; gap: 10px;\">\n                                    <span>Wounds:</span>\n                                    <input type=\"text\" value=\""

def tpl750p2 : String :=
  "\" style=\"width: 60px; padding: 4px; border: 1px solid #8b6914; text-align: center;\">\n                                </div>\n                                <div style=\"display: flex; align-items: center; gap: 10px;\">\n                                    <span>Temp:</span>\n                                    <input type=\"text\" value=\""

def tpl750p3 : String :=
  "\" style=\"width: 60px; padding: 4px; border: 1px solid #8b6914; text-align: center;\">\n                                </div>\n                            </div>\n                        </div>\n                    </div>\n                    \n                    <div class=\"section\">\n                        <h2>Combat Stats</h2>\n                        <div style=\"text-align: center; padding: 15px;\">\n                            <div style=\"margin-bottom: 15px;\">\n                                <strong>Armor Class:</strong>\n                                <div style=\"font-size: 1.8em; font-weight: bold; color: #8b6914;\">"

def tpl750p4 : String :=
  "</div>\n                            </div>\n                            <div style=\"margin-bottom: 15px;\">\n                                <strong>Initiative:</strong>\n                                <div style=\"font-size: 1.5em; font-weight: bold; color: #8b6914;\">"

def tpl750p5 : String :=
  "</div>\n                            </div>\n                            <div style=\"margin-bottom: 15px;\">\n                                <strong>Speed:</strong>\n                                <div style=\"font-size: 1.5em; font-weight: bold; color: #8b6914;\">"

def tpl750p6 : String :=
  " ft</div>\n                            </div>\n                            <div style=\"margin-bottom: 15px;\">\n                                <strong>Proficiency Bonus:</strong>\n                                <div style=\"font-size: 1.5em; font-weight: bold; color: #8b6914;\">"

def tpl750p7 : String :=
  "</div>\n                            </div>\n                            <div>\n                                <strong>Melee Attack Bonus:</strong>\n                                <div style=\"font-size: 1.5em; font-weight: bold; color: #8b6914;\">"

def tpl750p8 : String :=
  "</div>\n                            </div>\n                        </div>\n                    </div>\n                    \n                    <div class=\"section\">\n                        <h2>Features</h2>\n                        <ul class=\"features-list\">"

-- template literal at server.js line 808; interpolations: ['escapeHtml(p)']
def tpl808p0 : String :=
  "<p>"

def tpl808p1 : String :=
  "</p>"

-- template literal at server.js line 810; interpolations: ['escapeHtml(feature.name)', 'escapeHtml(feature.level)', 'escapeHtml(feature.name)', 'tooltipContent']
def tpl810p0 : String :=
  "                            <li>\n                                <span class=\"tooltip-trigger\">\n                                    <strong>"

def tpl810p1 : String :=
  "</strong> (Lvl "

def tpl810p2 : String :=
  ")\n                                    <span class=\"tooltip\">\n                                        <div class=\"tooltip-title\">"

def tpl810p3 : String :=
  "</div>\n                                        <div class=\"tooltip-content\">"

def tpl810p4 : String :=
  "</div>\n                                    </span>\n                                </span>\n                            </li>\n"

-- template literal at server.js line 820; interpolations: ['escapeHtml(feature.name)', 'escapeHtml(feature.level)']
def tpl820p0 : String :=
  "                            <li><strong>"

def tpl820p1 : String :=
  "</strong> (Lvl "

def tpl820p2 : String :=
  ")</li>\n"

-- template literal at server.js line 824; interpolations: []
def tpl824p0 : String :=
  "                            <li><em>No features</em></li>\n"

-- template literal at server.js line 827; interpolations: []
def tpl827p0 : String :=
  "                        </ul>\n                    </div>\n                    \n                    <div class=\"section\">\n                        <h2>Feats</h2>\n                        <ul class=\"feats-list\">"

-- template literal at server.js line 839; interpolations: ['escapeHtml(p)']
def tpl839p0 : String :=
  "<p>"

def tpl839p1 : String :=
  "</p>"

-- template literal at server.js line 841; interpolations: ['escapeHtml(feat.name)', 'escapeHtml(feat.name)', 'tooltipContent']
def tpl841p0 : String :=
  "                            <li>\n                                <span class=\"tooltip-trigger\">\n                                    <strong>"

def tpl841p1 : String :=
  "</strong>\n                                    <span class=\"tooltip\">\n                                        <div class=\"tooltip-title\">"

def tpl841p2 : String :=
  "</div>\n                                        <div class=\"tooltip-content\">"

def tpl841p3 : String :=
  "</div>\n                                    </span>\n                                </span>\n                            </li>\n"

-- template literal at server.js line 851; interpolations: ['escapeHtml(feat.name)']
def tpl851p0 : String :=
  "                            <li><strong>"

def tpl851p1 : String :=
  "</strong></li>\n"

-- template literal at server.js line 855; interpolations: []
def tpl855p0 : String :=
  "                            <li><em>No feats</em></li>\n"

-- template literal at server.js line 858; interpolations: []
def tpl858p0 : String :=
  "                        </ul>\n                    </div>\n                </div>\n            </div>\n        </div>\n        \n        <div class=\"page\">\n            <div class=\"section\">\n                <h2>Equipment</h2>\n                <ul class=\"inventory-list\">"

-- template literal at server.js line 871; interpolations: ['item.count']
def tpl871p0 : String :=
  " x"

def tpl871p1 : String :=
  ""

-- template literal at server.js line 876; interpolations: ['escapeHtml(p)']
def tpl876p0 : String :=
  "<p>"

def tpl876p1 : String :=
  "</p>"

-- template literal at server.js line 878; interpolations: ['escapeHtml(item.name)', 'escapeHtml(countText)', 'escapeHtml(item.name)', 'tooltipContent']
def tpl878p0 : String :=
  "                    <li>\n                        <span class=\"tooltip-trigger\">\n                            <span>"

def tpl878p1 : String :=
  ""

def tpl878p2 : String :=
  "</span>\n                            <span class=\"tooltip\">\n                                <div class=\"tooltip-title\">"

def tpl878p3 : String :=
  "</div>\n                                <div class=\"tooltip-content\">"

def tpl878p4 : String :=
  "</div>\n                            </span>\n                        </span>\n                    </li>\n"

-- template literal at server.js line 888; interpolations: ['escapeHtml(item.name)', 'escapeHtml(countText)']
def tpl888p0 : String :=
  "                    <li><span>"

def tpl888p1 : String :=
  ""

def tpl888p2 : String :=
  "</span></li>\n"

-- template literal at server.js line 892; interpolations: []
def tpl892p0 : String :=
  "                    <li><em>No equipment</em></li>\n"

-- template literal at server.js line 895; interpolations: []
def tpl895p0 : String :=
  "                </ul>\n            </div>\n            \n            <div class=\"section\">\n                <h2>Wealth</h2>\n                <div class=\"coins\">"

-- template literal at server.js line 905; interpolations: ['coinType', 'escapeHtml(coinValue)']
def tpl905p0 : String :=
  "                    <div class=\"coin-item\">\n                        <strong>"

def tpl905p1 : String :=
  "</strong>\n                        <input type=\"text\" value=\""

def tpl905p2 : String :=
  "\" />\n                    </div>\n"

-- template literal at server.js line 911; interpolations: []
def tpl911p0 : String :=
  "                </div>\n            </div>\n        </div>\n        \n        <div class=\"page\">"

-- template literal at server.js line 919; interpolations: []
def tpl919p0 : String :=
  "            <div class=\"section\">\n                <h2>Spell Slots</h2>"

-- template literal at server.js line 927; interpolations: ['level']
def tpl927p0 : String :=
  "                <div class=\"spell-slot-level\">\n                    <strong>Level "

def tpl927p1 : String :=
  ":</strong>\n                    <div class=\"spell-slot-bubbles\">"

-- template literal at server.js line 933; interpolations: ['checked']
def tpl933p0 : String :=
  "                        <input type=\"checkbox\" "

def tpl933p1 : String :=
  ">\n"

-- template literal at server.js line 936; interpolations: []
def tpl936p0 : String :=
  "                    </div>\n                </div>\n"

-- template literal at server.js line 940; interpolations: []
def tpl940p0 : String :=
  "            </div>\n"

-- template literal at server.js line 948; interpolations: []
def tpl948p0 : String :=
  "            <div class=\"section\">\n                <h2>Sorcery Points</h2>\n                <div class=\"spell-slot-bubbles\" style=\"padding: 10px;\">"

-- template literal at server.js line 954; interpolations: ['checked']
def tpl954p0 : String :=
  "                    <input type=\"checkbox\" "

def tpl954p1 : String :=
  ">\n"

-- template literal at server.js line 957; interpolations: []
def tpl957p0 : String :=
  "                </div>\n            </div>\n"

-- template literal at server.js line 963; interpolations: ['escapeHtml(spellSaveDC.toString())', 'formatModifier(spellAttackBonus)']
def tpl963p0 : String :=
  "            <div class=\"section\" style=\"margin-bottom: 15px;\">\n                <h2>Spellcasting</h2>\n                <div style=\"display: grid; grid-template-columns: 1fr 1fr; gap: 15px; text-align: center; padding: 10px;\">\n                    <div>\n                        <strong>Spell Save DC:</strong>\n                        <div style=\"font-size: 1.5em; font-weight: bold; color: #8b6914;\">"

def tpl963p1 : String :=
  "</div>\n                    </div>\n                    <div>\n                        <strong>Spell Attack Bonus:</strong>\n                        <div style=\"font-size: 1.5em; font-weight: bold; color: #8b6914;\">"

def tpl963p2 : String :=
  "</div>\n                    </div>\n                </div>\n            </div>\n            \n            <div class=\"section\">\n                <div style=\"display: flex; justify-content: space-between; align-items: center; margin-bottom: 15px;\">\n                    <h2 style=\"margin: 0;\">Spells</h2>\n                    <div style=\"display: flex; gap: 8px;\">\n                        <button onclick=\"expandAllSpells()\" style=\"background: #8b6914; color: white; border: none; padding: 6px 12px; border-radius: 3px; cursor: pointer; font-size: 0.85em;\">Expand All</button>\n                        <button onclick=\"collapseAllSpells()\" style=\"background: #8b6914; color: white; border: none; padding: 6px 12px; border-radius: 3px; cursor: pointer; font-size: 0.85em;\">Collapse All</button>\n                    </div>\n                </div>"

-- template literal at server.js line 1001; interpolations: ['escapeHtml(level)', 'levelSpells.length']
def tpl1001p0 : String :=
  "                <div class=\"spell-level-toggle\" onclick=\"toggleSpell(this)\">\n                    <h3>Level "

def tpl1001p1 : String :=
  " ("

def tpl1001p2 : String :=
  " spells)</h3>\n                    <span>▼</span>\n                </div>\n                <div class=\"spell-level-content\">"

-- template literal at server.js line 1009; interpolations: ['preparedMark', 'escapeHtml(spell.name)']
def tpl1009p0 : String :=
  "                    <div style=\"background: #f5f1e8; padding: 8px; border-radius: 3px; border-left: 3px solid #8b6914; margin-bottom: 8px;\">\n                        <div><strong>"

def tpl1009p1 : String :=
  " "

def tpl1009p2 : String :=
  "</strong></div>"

-- template literal at server.js line 1013; interpolations: ['escapeHtml(spell.school)']
def tpl1013p0 : String :=
  "                        <div style=\"font-size: 0.85em;\"><strong>School:</strong> "

def tpl1013p1 : String :=
  "</div>\n"

-- template literal at server.js line 1019; interpolations: []
def tpl1019p0 : String :=
  "                        <div class=\"spell-description\" style=\"margin-top: 5px; font-size: 0.9em; white-space: pre-wrap;\">"

-- template literal at server.js line 1021; interpolations: ['escapeHtml(para)']
def tpl1021p0 : String :=
  "<p style=\"margin: 5px 0;\">"

def tpl1021p1 : String :=
  "</p>"

-- template literal at server.js line 1023; interpolations: []
def tpl1023p0 : String :=
  "</div>\n"

-- template literal at server.js line 1026; interpolations: []
def tpl1026p0 : String :=
  "                    </div>\n"

-- template literal at server.js line 1029; interpolations: []
def tpl1029p0 : String :=
  "                </div>\n"

-- template literal at server.js line 1032; interpolations: []
def tpl1032p0 : String :=
  "            </div>\n"

-- template literal at server.js line 1035; interpolations: []
def tpl1035p0 : String :=
  "        </div>\n    </div>\n    \n    <script>\n        function toggleSpell(element) \x7b\n            const content = element.nextElementSibling;\n            content.classList.toggle(\x27active\x27);\n        \x7d\n        \n        function expandAllSpells() \x7b\n            document.querySelectorAll(\x27.spell-level-content\x27).forEach(el => \x7b\n                el.classList.add(\x27active\x27);\n            \x7d);\n        \x7d\n        \n        function collapseAllSpells() \x7b\n            document.querySelectorAll(\x27.spell-level-content\x27).forEach(el => \x7b\n                el.classList.remove(\x27active\x27);\n            \x7d);\n        \x7d\n    </script>\n</body>\n</html>"

/-! ## The renderer (`generateCharacterHTML`, lines 362–1059)

The static pieces of each template literal are the `tplNNNpK` constants above
(`NNN` the source line, `K` the position among that literal's static parts);
the interpolations become the corresponding Lean expressions.  String
concatenation of the `html` accumulator becomes one concatenation chain. -/

/-- Identity fields (lines 85–89). -/
def nameOf (char : Tree) : Tree := safeGet char "name.0" (.str "")

def raceOf (char : Tree) : Tree := safeGet char "race.0" (.str "")

def subraceOf (char : Tree) : Tree := safeGet char "subrace.0" (.str "")

def alignmentOf (char : Tree) : Tree := safeGet char "alignment.0" (.str "")

def backgroundOf (char : Tree) : Tree := safeGet char "background.0" (.str "")

/-- `value || fallback` on a JS string value. -/
def strOr (v fallback : String) : String := if v = "" then fallback else v

/-- `value || fallback` on a `Tree` value. -/
def treeOr (v fallback : Tree) : Tree := if truthy v then v else fallback

/-- Lines 363–691: document head, title and header opening. -/
def headHtml (name : Tree) : String :=
  tpl363p0 ++ strOr (escapeHtml name) "Unknown" ++ tpl363p1 ++
    strOr (escapeHtml name) "Character Name" ++ tpl363p2

/-- Lines 693–697: the conditional race line (subrace in parentheses). -/
def raceBlockHtml (race subrace : Tree) : String :=
  if truthy race then
    let raceDisplay : Tree :=
      if truthy subrace then
        .str (jsToString race ++ tpl695p0 ++ jsToString subrace ++ tpl695p1)
      else race
    tpl696p0 ++ escapeHtml raceDisplay ++ tpl696p1
  else ""

/-- Lines 699–702: the conditional class line. -/
def classesBlockHtml (classes : List ClassInfo) : String :=
  if 0 < classes.length then
    let classesStr := String.intercalate ", "
      (classes.map fun c => jsToString c.name ++ tpl700p1 ++ jsToString c.level)
    tpl701p0 ++ escapeHtml (.str classesStr) ++ tpl701p1
  else ""

/-- Lines 704–706. -/
def backgroundBlockHtml (background : Tree) : String :=
  if truthy background then tpl705p0 ++ escapeHtml background ++ tpl705p1 else ""

/-- Lines 708–710. -/
def alignmentBlockHtml (alignment : Tree) : String :=
  if truthy alignment then tpl709p0 ++ escapeHtml alignment ++ tpl709p1 else ""

/-- Lines 712–718. -/
def profBlockHtml (profBonus : Int) : String :=
  tpl712p0 ++ formatModifierNum (some profBonus) ++ tpl712p1

/-- One stat box of the ability loop (lines 721–735). -/
def statBoxHtml (abilName : String) (abilData : Option AbilityInfo) : String :=
  let abilDisplay := String.mk ((abilName.data.take 3).map Char.toUpper)
  let score := match abilData with
    | some ai => treeOr ai.score (.str "10")
    | none => .str "10"
  let bonus := match abilData with
    | some ai => treeOr ai.bonus (.str "0")
    | none => .str "0"
  let save := match abilData with
    | some ai => treeOr ai.save (.str "0")
    | none => .str "0"
  let isProf := match abilData with
    | some ai => ai.saveprof
    | none => false
  tpl729p0 ++ abilDisplay ++ tpl729p1 ++ escapeHtml score ++ tpl729p2 ++
    formatModifierT bonus ++ tpl729p3 ++ formatModifierT save ++ tpl729p4 ++
    (if isProf then "✓" else "") ++ tpl729p5

def abilitiesHtml (char : Tree) : String :=
  String.join (abilityNames.map fun n => statBoxHtml n (abilityOf char n))

/-- One skill row (lines 742–748). -/
def skillItemHtml (skill : SkillInfo) : String :=
  let profIndicator := if skill.prof then "●" else "○"
  tpl744p0 ++ profIndicator ++ tpl744p1 ++ escapeHtml skill.name ++ tpl744p2 ++
    formatModifierT skill.total ++ tpl744p3

def skillsHtml (char : Tree) : String :=
  String.join ((skillsOf char).map skillItemHtml)

/-- Lines 750–801: skill close, Hit Points box (`hpWounds` and `hpTemp` are
interpolated RAW, without `escapeHtml`), Combat Stats, Features heading. -/
def hpCombatHtml (char : Tree) : String :=
  tpl750p0 ++ escapeHtml (hpTotalOf char) ++ tpl750p1 ++
    jsToString (hpWoundsOf char) ++ tpl750p2 ++
    jsToString (hpTempOf char) ++ tpl750p3 ++
    escapeHtml (acOf char) ++ tpl750p4 ++
    formatModifierT (initiativeOf char) ++ tpl750p5 ++
    escapeHtml (speedOf char) ++ tpl750p6 ++
    formatModifierNum (some (profBonusOf char)) ++ tpl750p7 ++
    formatModifierNum (meleeAttackBonusOf char) ++ tpl750p8

/-- `description.split('\n\n').filter(Boolean).map(p => ...).join('')`. -/
def tooltipContentOf (description : String) : String :=
  String.join (((jsSplitStr description "\n\n").filter (fun p => p ≠ "")).map
    (fun p => tpl808p0 ++ escapeHtml (.str p) ++ tpl808p1))

/-- One feature item (lines 804–822). -/
def featureLiHtml (f : FeatureInfo) : String :=
  if f.description ≠ "" then
    tpl810p0 ++ escapeHtml f.name ++ tpl810p1 ++ escapeHtml f.level ++
      tpl810p2 ++ escapeHtml f.name ++ tpl810p3 ++
      tooltipContentOf f.description ++ tpl810p4
  else
    tpl820p0 ++ escapeHtml f.name ++ tpl820p1 ++ escapeHtml f.level ++ tpl820p2

def featuresHtml (features : List FeatureInfo) : String :=
  if 0 < features.length then String.join (features.map featureLiHtml)
  else tpl824p0

/-- One feat item (lines 835–853). -/
def featLiHtml (f : FeatInfo) : String :=
  if f.description ≠ "" then
    tpl841p0 ++ escapeHtml f.name ++ tpl841p1 ++ escapeHtml f.name ++
      tpl841p2 ++ tooltipContentOf f.description ++ tpl841p3
  else
    tpl851p0 ++ escapeHtml f.name ++ tpl851p1

def featsHtml (feats : List FeatInfo) : String :=
  if 0 < feats.length then String.join (feats.map featLiHtml)
  else tpl855p0

/-- One inventory item (lines 870–890). -/
def inventoryLiHtml (item : ItemInfo) : String :=
  let countText :=
    if isStrEq item.count "1" then "" else tpl871p0 ++ jsToString item.count
  if item.description ≠ "" then
    tpl878p0 ++ escapeHtml item.name ++ tpl878p1 ++ escapeHtml (.str countText) ++
      tpl878p2 ++ escapeHtml item.name ++ tpl878p3 ++
      tooltipContentOf item.description ++ tpl878p4
  else
    tpl888p0 ++ escapeHtml item.name ++ tpl888p1 ++ escapeHtml (.str countText) ++
      tpl888p2

def inventoryHtml (inventory : List ItemInfo) : String :=
  if 0 < inventory.length then String.join (inventory.map inventoryLiHtml)
  else tpl892p0

/-- The fixed coin order of line 902. -/
def coinOrder : List String := ["PP", "GP", "EP", "SP", "CP"]

def coinsHtml (coins : List (String × Tree)) : String :=
  String.join (coinOrder.map fun coinType =>
    tpl905p0 ++ coinType ++ tpl905p1 ++ escapeHtml (coinValue coins coinType) ++
      tpl905p2)

/-- The loop bound of `for (let i = 0; i < max; i++)` over a JS Number that
may be `NaN` (no iterations) or negative (no iterations). -/
def loopCount (o : Option Int) : Nat :=
  match o with
  | some n => n.toNat
  | none => 0

/-- `i < used` with a possibly-`NaN` bound (always false on `NaN`). -/
def checkedAt (used : Option Int) (i : Nat) : Bool :=
  match used with
  | some u => (i : Int) < u
  | none => false

/-- One spell-slot row (lines 922–937). -/
def slotRowHtml (level : Nat) (maxT usedT : Tree) : String :=
  let maxSlots := parseIntJS (jsToString maxT)
  let usedSlots := parseIntJS (jsToString (treeOr usedT (.str "0")))
  tpl927p0 ++ toString level ++ tpl927p1 ++
    String.join ((List.range (loopCount maxSlots)).map fun i =>
      tpl933p0 ++ (if checkedAt usedSlots i then "checked" else "") ++ tpl933p1) ++
    tpl936p0

/-- Lines 917–941 (the `Object.keys(...).sort(parseInt-ascending)` of the
source enumerates the slot levels in ascending order, which is the order
`spellSlotsOf` already produces). -/
def spellSlotsHtml (slots : List (Nat × Tree × Tree)) : String :=
  if 0 < slots.length then
    tpl919p0 ++
      String.join (slots.map fun s => slotRowHtml s.1 s.2.1 s.2.2) ++ tpl940p0
  else ""

/-- Lines 943–959. -/
def sorceryHtml (sp : Option (Tree × Tree)) : String :=
  match sp with
  | some (maxT, usedT) =>
    let maxPoints := parseIntJS (jsToString maxT)
    let usedPoints := parseIntJS (jsToString usedT)
    tpl948p0 ++
      String.join ((List.range (loopCount maxPoints)).map fun i =>
        tpl954p0 ++ (if checkedAt usedPoints i then "checked" else "") ++
          tpl954p1) ++
      tpl957p0
  | none => ""

/-- The grouping key of lines 987–991:
`spell.level && spell.level !== '0' ? spell.level : 'Cantrip'` (the object
key is the stringified value). -/
def spellGroupKey (sp : SpellInfo) : String :=
  if truthy sp.level && (isStrEq sp.level "0") = false then jsToString sp.level
  else "Cantrip"

/-- `spellsByLevel[level].push(spell)` grouping, first-seen key order. -/
def addToGroup (acc : List (String × List SpellInfo)) (key : String)
    (sp : SpellInfo) : List (String × List SpellInfo) :=
  match acc with
  | [] => [(key, [sp])]
  | (k, l) :: rest =>
    if k = key then (k, l ++ [sp]) :: rest else (k, l) :: addToGroup rest key sp

def groupSpells (spells : List SpellInfo) : List (String × List SpellInfo) :=
  spells.foldl (fun acc sp => addToGroup acc (spellGroupKey sp) sp) []

/-- `Object.keys` order over the group object: canonical integer keys in
ascending numeric order first, then the rest in insertion order. -/
def groupKeysJS (groups : List (String × List SpellInfo)) : List String :=
  let ks := groups.map Prod.fst
  (sortByCmp (fun a b =>
    match canonIndex a, canonIndex b with
    | some i, some j => (i : Int) - (j : Int)
    | some _, none => -1
    | none, some _ => 1
    | none, none => 0) (ks.filter fun k => (canonIndex k).isSome)) ++
    ks.filter (fun k => (canonIndex k).isSome = false)

/-- The level-order comparator of lines 993–997 (`Cantrip` first, then
`parseInt` ascending; a `NaN` comparator value sorts as `0`). -/
def levelOrderCmp (a b : String) : Int :=
  if a = "Cantrip" then -1
  else if b = "Cantrip" then 1
  else
    match parseIntJS a, parseIntJS b with
    | some x, some y => x - y
    | _, _ => 0

def groupGet (groups : List (String × List SpellInfo)) (key : String) :
    List SpellInfo :=
  match groups.find? (fun p => p.1 = key) with
  | some p => p.2
  | none => []

/-- One spell card (lines 1007–1027). -/
def spellCardHtml (spell : SpellInfo) : String :=
  let preparedMark :=
    if truthy spell.prepared && (isStrEq spell.prepared "0") = false then "●"
    else "○"
  tpl1009p0 ++ preparedMark ++ tpl1009p1 ++ escapeHtml spell.name ++ tpl1009p2 ++
    (if truthy spell.school then tpl1013p0 ++ escapeHtml spell.school ++ tpl1013p1
     else "") ++
    (if spell.description ≠ "" then
      tpl1019p0 ++
        String.join (((jsSplitStr spell.description "\n\n").filter
          (fun p => p ≠ "")).map fun para =>
            tpl1021p0 ++ escapeHtml (.str para) ++ tpl1021p1) ++
        tpl1023p0
     else "") ++
    tpl1026p0

/-- One per-level toggle section (lines 999–1030). -/
def levelSectionHtml (key : String) (levelSpells : List SpellInfo) : String :=
  tpl1001p0 ++ escapeHtml (.str key) ++ tpl1001p1 ++
    toString levelSpells.length ++ tpl1001p2 ++
    String.join (levelSpells.map spellCardHtml) ++ tpl1029p0

/-- Lines 961–1033: the whole conditional spellcasting + spells block. -/
def spellsSectionHtml (char : Tree) : String :=
  let spells := spellsOf char
  if 0 < spells.length then
    let groups := groupSpells spells
    tpl963p0 ++ escapeHtml (.str (toString (spellSaveDCOf char))) ++ tpl963p1 ++
      formatModifierNum (some (spellAttackBonusOf char)) ++ tpl963p2 ++
      String.join ((sortByCmp levelOrderCmp (groupKeysJS groups)).map fun key =>
        levelSectionHtml key (groupGet groups key)) ++
      tpl1032p0
  else ""

/-- `generateCharacterHTML(characterData)`: the full accumulated `html`
string, section by section in source order. -/
def generateCharacterHTML (characterData : Tree) : String :=
  let char := safeGet characterData "character" (.map [])
  headHtml (nameOf char) ++
  raceBlockHtml (raceOf char) (subraceOf char) ++
  classesBlockHtml (classesInfoOf char) ++
  backgroundBlockHtml (backgroundOf char) ++
  alignmentBlockHtml (alignmentOf char) ++
  profBlockHtml (profBonusOf char) ++
  abilitiesHtml char ++
  tpl738p0 ++
  skillsHtml char ++
  hpCombatHtml char ++
  featuresHtml (featuresOf char) ++
  tpl827p0 ++
  featsHtml (featsOf char) ++
  tpl858p0 ++
  inventoryHtml (inventoryOf char) ++
  tpl895p0 ++
  coinsHtml (coinsOf char) ++
  tpl911p0 ++
  spellSlotsHtml (spellSlotsOf char) ++
  sorceryHtml (sorceryPointsOf char) ++
  spellsSectionHtml char ++
  tpl1035p0

/-! ## Claims about the renderer: escaping (C1) and the read-only frame (C10) -/

/-- `safeGet` in explicit state-passing form: the body's only assignments are
to the locals `keys` and `result`; no statement stores through the `obj`
reference, so the translated call returns the received tree unchanged
alongside its value. -/
def safeGetT (obj : Tree) (path : String) (d : Tree) : Tree × Tree :=
  (safeGet obj path d, obj)

/-- `generateCharacterHTML` in explicit state-passing form: every read of the
input goes through `safeGet`/property reads and every write targets a local
(`totalLevel`, `classesInfo`, …, `html`), so the translated call returns the
received tree unchanged alongside the rendered string. -/
def generateCharacterHTMLT (characterData : Tree) : String × Tree :=
  (generateCharacterHTML characterData, characterData)

/-- `s` contains `sub` as a contiguous substring. -/
def ContainsSub (s sub : String) : Prop :=
  ∃ p q : String, s = p ++ sub ++ q

/-- A document whose character's `hp.wounds` text is a lone double-quote. -/
def xssTree : Tree :=
  .map [("character", .seq [.map [("hp", .seq [.map [
    ("wounds", .seq [.str "\""])]])]])]

/-- The `character` subtree of `xssTree`. -/
def xssChar : Tree :=
  .map [("hp", .seq [.map [("wounds", .seq [.str "\""])]])]

/-- `tpl750p1` split before its trailing `value="`. -/
def tpl750p1front : String :=
  "</div>\n                            <div class=\"hp-current\">Current HP</div>\n                            <div class=\"hp-details\">\n                                <div style=\"display: flex; align-items: center; gap: 10px;\">\n                                    <span>Wounds:</span>\n                                    <input type=\"text\" "

/-- `tpl750p2` split after its leading `"`. -/
def tpl750p2rest : String :=
  " style=\"width: 60px; padding: 4px; border: 1px solid #8b6914; text-align: center;\">\n                                </div>\n                                <div style=\"display: flex; align-items: center; gap: 10px;\">\n                                    <span>Temp:</span>\n                                    <input type=\"text\" value=\""

/-! ## Theorems -/

theorem lexNat_swap : ∀ a b : List Nat, lexNat a b = (lexNat b a).swap := by
  intro a
  induction a with
  | nil => intro b; cases b <;> rfl
  | cons x xs ih =>
    intro b
    cases b with
    | nil => rfl
    | cons y ys =>
      simp only [lexNat]
      rcases lt_trichotomy x y with h | h | h
      · have h2 : ¬ y < x := by omega
        simp only [h, h2, if_true, if_false, if_pos, if_neg]
        rfl
      · have h1 : ¬ x < y := by omega
        have h2 : ¬ y < x := by omega
        simp [h1, h2, ih ys]
      · have h1 : ¬ x < y := by omega
        simp only [h, h1, if_true, if_false, if_pos, if_neg]
        rfl

theorem localeCompare_swap (a b : String) :
    localeCompare a b = -(localeCompare b a) := by
  unfold localeCompare
  rw [lexNat_swap (a.data.map primWeight),
    lexNat_swap (a.data.map caseWeight)]
  rcases hp : lexNat (b.data.map primWeight) (a.data.map primWeight) <;>
    rcases hc : lexNat (b.data.map caseWeight) (a.data.map caseWeight) <;>
    rfl

/-- A comparator whose sign flips when the arguments are swapped sorts
consistently: after inserting into an adjacently sorted list the list is
still adjacently sorted. -/
theorem adjSorted_insertCmp (cmp : α → α → Int)
    (hswap : ∀ a b, cmp a b = -(cmp b a)) (x : α) :
    ∀ l, AdjSorted cmp l → AdjSorted cmp (insertCmp cmp x l) := by
  intro l
  induction l with
  | nil =>
    intro _
    exact List.chain'_singleton x
  | cons y ys ih =>
    intro hs
    have hs' : AdjSorted cmp ys := (List.chain'_cons'.mp hs).2
    have hhead : ∀ z ∈ ys.head?, cmp y z ≤ 0 := (List.chain'_cons'.mp hs).1
    simp only [insertCmp]
    by_cases hxy : cmp x y < 0
    · rw [if_pos hxy]
      exact List.chain'_cons.mpr ⟨le_of_lt hxy, hs⟩
    · rw [if_neg hxy]
      have hyx : cmp y x ≤ 0 := by
        have := hswap x y; omega
      refine List.chain'_cons'.mpr ⟨?_, ih hs'⟩
      intro z hz
      cases ys with
      | nil =>
        simp only [insertCmp, List.head?_cons, Option.mem_def,
          Option.some.injEq] at hz
        subst hz; exact hyx
      | cons w ws =>
        by_cases hxw : cmp x w < 0
        · simp only [insertCmp, if_pos hxw, List.head?_cons, Option.mem_def,
            Option.some.injEq] at hz
          subst hz; exact hyx
        · simp only [insertCmp, if_neg hxw, List.head?_cons, Option.mem_def,
            Option.some.injEq] at hz
          subst hz
          exact hhead w rfl

/-- `sortByCmp` output is adjacently sorted for any swap-antisymmetric
comparator. -/
theorem adjSorted_sortByCmp (cmp : α → α → Int)
    (hswap : ∀ a b, cmp a b = -(cmp b a)) (l : List α) :
    AdjSorted cmp (sortByCmp cmp l) := by
  have h : ∀ (l : List α) (acc : List α), AdjSorted cmp acc →
      AdjSorted cmp (l.foldl (fun acc x => insertCmp cmp x acc) acc) := by
    intro l
    induction l with
    | nil => intro acc h; exact h
    | cons x xs ih =>
      intro acc hacc
      exact ih _ (adjSorted_insertCmp cmp hswap x acc hacc)
  exact h l [] List.chain'_nil

/-! ## Claims about the normalizer and the numeric helpers -/

theorem walkKeysE_ok (ks : List String) :
    ∀ t : Tree, walkKeysE t ks = .ok (walkKeys t ks) := by
  induction ks with
  | nil => intro t; rfl
  | cons k ks ih =>
    intro t
    simp only [walkKeysE, walkKeys, stepGet]
    by_cases hg : (truthy t && isObject t) = true
    · rw [if_pos hg, if_pos hg]
      have hobj : isObject t = true := (Bool.and_elim_right hg)
      cases t with
      | undefined => simp [isObject] at hobj
      | str s => simp [isObject] at hobj
      | seq l =>
        simp only [inOpE]
        cases hp : hasProp (.seq l) k
        · simp [hp]
        · simp [hp, ih]
      | map l =>
        simp only [inOpE]
        cases hp : hasProp (.map l) k
        · simp [hp]
        · simp [hp, ih]
    · rw [if_neg hg, if_neg hg]

theorem finishE_ok (r d : Tree) : finishE r d = .ok (finish r d) := by
  unfold finishE finish
  cases hu : unwrap r with
  | undefined => rfl
  | str s => simp [truthy, isObject]
  | seq l => rfl
  | map l =>
    simp only [truthy, isObject, Bool.and_self, if_pos, inOpE, hasProp]
    cases hl : lookupMap l "_" with
    | some v => simp [hl, getProp]
    | none =>
      cases hl2 : lookupMap l "$t" with
      | some v => simp [hl, hl2, getProp]
      | none => simp [hl, hl2, truthy]

/-- C3: for every tree, dotted path and default, if some path segment is
absent at its step of the walk the result is the supplied default; and the
JS throw hazards of the body (the `in` operator on a non-object, both in the
walk and in the text-wrapper lookup) are unreachable behind the short-circuit
guards of the source, so `safeGet` never throws — its exception-explicit
rendering `safeGetE` always returns `.ok` of the `safeGet` value. -/
theorem safeGet_default_never_throws (t : Tree) (path : String) (d : Tree) :
    (walkKeys t (jsSplitDot path) = none → safeGet t path d = d) ∧
    safeGetE t path d = .ok (safeGet t path d) := by
  constructor
  · intro h
    unfold safeGet safeGetKeys
    rw [h]
  · unfold safeGetE safeGet safeGetKeys
    rw [walkKeysE_ok]
    cases walkKeys t (jsSplitDot path) with
    | none => rfl
    | some r => exact finishE_ok r d

theorem safeGet_default_never_throws_witness :
    (walkKeys (.map [("x", .str "1")]) (jsSplitDot "a.b") = none) ∧
    safeGet (.map [("x", .str "1")]) "a.b" (.str "fallback") = .str "fallback" ∧
    safeGetE (.map [("x", .str "1")]) "a.b" (.str "fallback") =
      .ok (.str "fallback") := by
  refine ⟨rfl, ?_, ?_⟩
  · exact (safeGet_default_never_throws (.map [("x", .str "1")]) "a.b"
      (.str "fallback")).1 rfl
  · exact (safeGet_default_never_throws (.map [("x", .str "1")]) "a.b"
      (.str "fallback")).2

theorem unwrap_wrapN (n : Nat) (s : String) :
    unwrap (wrapN n (.str s)) = .str s := by
  induction n with
  | zero => rfl
  | succ m ih =>
    show unwrap (.seq [wrapN m (.str s)]) = .str s
    rw [show unwrap (.seq [wrapN m (.str s)]) = unwrap (wrapN m (.str s)) from rfl]
    exact ih

/-- C4 (corrected): the unwrap round-trip holds for every nonempty scalar at
every wrapping depth and every default — reading a key whose value is the
`n`-fold wrap of a nonempty string scalar returns that scalar. -/
theorem safeGet_unwrap_roundtrip (n : Nat) (s : String) (d : Tree)
    (_hn : 1 ≤ n) (hs : s ≠ "") :
    safeGet (.map [("a", wrapN n (.str s))]) "a" d = .str s := by
  unfold safeGet safeGetKeys
  rw [show jsSplitDot "a" = ["a"] from rfl]
  rw [show walkKeys (.map [("a", wrapN n (.str s))]) ["a"] =
    some (wrapN n (.str s)) from rfl]
  show finish (wrapN n (.str s)) d = .str s
  unfold finish
  rw [unwrap_wrapN]
  simp [truthy, hs]

theorem safeGet_unwrap_roundtrip_witness :
    1 ≤ 2 ∧ ("hi" : String) ≠ "" ∧
    safeGet (.map [("a", wrapN 2 (.str "hi"))]) "a" (.str "x") = .str "hi" := by
  refine ⟨by decide, by decide, ?_⟩
  exact safeGet_unwrap_roundtrip 2 "hi" (.str "x") (by decide) (by decide)

/-- C4 counterexample: the claim as stated fails for the empty scalar — the
final `result || defaultValue` of `safeGet` replaces a falsy result, so the
empty string wrapped once reads back as the (here nonempty) default, not as
itself. -/
theorem safeGet_unwrap_empty_counterexample :
    safeGet (.map [("a", wrapN 1 (.str ""))]) "a" (.str "x") = .str "x" ∧
    Tree.str "x" ≠ Tree.str "" := by
  refine ⟨rfl, ?_⟩
  intro h
  injection h with h2
  exact absurd h2 (by decide)

/-- C5: `parseInt` never throws, so `formatModifier`'s `catch { return value }`
is dead code — a non-numeric input is rendered `"NaN"` (the string of `NaN`),
not passed through unchanged; numeric inputs keep the claimed sign rendering. -/
theorem formatModifier_nan_bug :
    formatModifier "abc" = "NaN" ∧ ("NaN" : String) ≠ "abc" ∧
    formatModifier "3" = "+3" ∧ formatModifier "0" = "+0" ∧
    formatModifier "-2" = "-2" ∧
    (∀ (s : String) (n : Int), parseIntJS s = some n →
      formatModifier s = if 0 ≤ n then "+" ++ toString n else toString n) := by
  refine ⟨rfl, by decide, rfl, rfl, rfl, ?_⟩
  intro s n h
  unfold formatModifier
  rw [h]

theorem formatModifier_nan_bug_witness :
    parseIntJS "7" = some 7 ∧ formatModifier "7" = "+7" := by
  refine ⟨rfl, ?_⟩
  exact formatModifier_nan_bug.2.2.2.2.2 "7" 7 rfl

/-- C6: the proficiency table holds for parseable levels via
`2 + floor((lvl - 1) / 4)`, but a level that does not parse yields `NaN`
(the `catch { return 2 }` branch is dead because `parseInt` never throws),
not the claimed `2`. -/
theorem getProficiencyBonus_nan_bug :
    getProficiencyBonus "abc" = none ∧ (none : Option Int) ≠ some 2 ∧
    getProficiencyBonus "1" = some 2 ∧ getProficiencyBonus "4" = some 2 ∧
    getProficiencyBonus "5" = some 3 ∧ getProficiencyBonus "9" = some 4 ∧
    getProficiencyBonus "17" = some 6 ∧ getProficiencyBonus "20" = some 6 ∧
    (∀ (s : String) (n : Int), parseIntJS s = some n →
      getProficiencyBonus s = some (2 + Int.fdiv (n - 1) 4)) := by
  refine ⟨rfl, by decide, rfl, rfl, rfl, rfl, rfl, rfl, ?_⟩
  intro s n h
  unfold getProficiencyBonus
  rw [h]

theorem getProficiencyBonus_nan_bug_witness :
    parseIntJS "12" = some 12 ∧ getProficiencyBonus "12" = some 4 := by
  refine ⟨rfl, ?_⟩
  exact getProficiencyBonus_nan_bug.2.2.2.2.2.2.2.2 "12" 12 rfl

/-! ## Claims about the sorts (skills, spells) -/

theorem skillCmp_swap (a b : SkillInfo) : skillCmp a b = -(skillCmp b a) := by
  unfold skillCmp
  exact localeCompare_swap _ _

theorem spellCmp_swap (a b : SpellInfo) : spellCmp a b = -(spellCmp b a) := by
  unfold spellCmp
  by_cases h : spellLevelKey a.level = spellLevelKey b.level
  · simp [h, localeCompare_swap (jsToString a.name) (jsToString b.name)]
  · have h2 : spellLevelKey b.level ≠ spellLevelKey a.level := fun e => h e.symm
    simp only [ne_eq, h, h2, not_false_eq_true, if_true, if_pos]
    omega

/-- C2 counterexample: the sort key is `parseInt(level) || 99`, and
`parseInt("0")` is the falsy `0`, so a cantrip gets key `99` and sorts after
every leveled spell: the example's extracted sequence is
`A (lvl 1), Z (lvl 1), A (lvl 0)`, not the claimed
`A (lvl 0), A (lvl 1), Z (lvl 1)`. -/
theorem spells_sort_counterexample :
    (spellsOf c2ExampleChar).map (fun s => (jsToString s.name, jsToString s.level)) =
      [("A", "1"), ("Z", "1"), ("A", "0")] ∧
    ([("A", "1"), ("Z", "1"), ("A", "0")] : List (String × String)) ≠
      [("A", "0"), ("A", "1"), ("Z", "1")] := by
  exact ⟨by decide, by decide⟩

/-- C2 (amended): the extracted spell sequence is sorted by the comparator of
the source — key `parseInt(level) || 99` ascending (so cantrips and
unparsable levels sort after all leveled spells), ties broken by
`name.localeCompare` — for every input character subtree; on the spec's
example the order is `A (lvl 1), Z (lvl 1), A (lvl 0)`. -/
theorem spells_sorted_amended :
    (∀ char : Tree, AdjSorted spellCmp (spellsOf char)) ∧
    (spellsOf c2ExampleChar).map (fun s => (jsToString s.name, jsToString s.level)) =
      [("A", "1"), ("Z", "1"), ("A", "0")] := by
  constructor
  · intro char
    exact adjSorted_sortByCmp spellCmp spellCmp_swap _
  · decide

/-- C9 counterexample: `localeCompare` under the default locale is a
locale-aware collation, not the case-sensitive code-point comparison: skills
named `B` and `a` come out in the order `a, B` (`'a'.localeCompare('B') < 0`
in a stock Node build), although under case-sensitive default string
comparison `"a" > "B"` (`'B'` has the smaller code point), so the output is
not sorted by that comparison. -/
theorem skills_sort_counterexample :
    (skillsOf c9CaseChar).map (fun s => jsToString s.name) = ["a", "B"] ∧
    compare ("a" : String) "B" = Ordering.gt := by
  exact ⟨by decide, by decide⟩

/-- C9 (amended): the extracted skill sequence is sorted by
`(a.name || '').localeCompare(b.name)` — the default-locale collation, which
is case-insensitive at primary strength — for every input character subtree;
the empty name sorts first (`''.localeCompare(s) <= 0` for every `s`), and
the spec's example gives `Acrobatics, Stealth`. -/
theorem skills_sorted_amended :
    (∀ char : Tree, AdjSorted skillCmp (skillsOf char)) ∧
    (∀ s : String, localeCompare "" s ≤ 0) ∧
    (skillsOf c9ExampleChar).map (fun s => jsToString s.name) =
      ["Acrobatics", "Stealth"] := by
  refine ⟨?_, ?_, by decide⟩
  · intro char
    exact adjSorted_sortByCmp skillCmp skillCmp_swap _
  · intro s
    unfold localeCompare
    cases hd : s.data with
    | nil => simp [lexNat]
    | cons c cs => simp [lexNat]

theorem spellFold_step (sa : Option String) (cls : ClassInfo) :
    (let className := jsToLower (jsToString cls.name)
     if jsIncludes className "wizard" then some "intelligence"
     else if jsIncludes className "druid" || jsIncludes className "cleric" ||
         jsIncludes className "ranger" then some "wisdom"
     else if jsIncludes className "paladin" || jsIncludes className "sorcerer" ||
         jsIncludes className "bard" || jsIncludes className "warlock" then
       some "charisma"
     else sa) =
    (match ruleOf (jsToString cls.name) with
     | some a => some a
     | none => sa) := by
  unfold ruleOf
  dsimp only
  split_ifs <;> rfl

/-- The spellcasting scan is a last-match-wins fold: it equals the first
keyword match over the reversed class list (with the accumulator as the
no-match fallback). -/
theorem spellFold_lastMatch (l : List ClassInfo) :
    ∀ acc : Option String,
      l.foldl
        (fun sa cls =>
          let className := jsToLower (jsToString cls.name)
          if jsIncludes className "wizard" then some "intelligence"
          else if jsIncludes className "druid" || jsIncludes className "cleric" ||
              jsIncludes className "ranger" then some "wisdom"
          else if jsIncludes className "paladin" || jsIncludes className "sorcerer" ||
              jsIncludes className "bard" || jsIncludes className "warlock" then
            some "charisma"
          else sa)
        acc =
      (match l.reverse.findSome? (fun c => ruleOf (jsToString c.name)) with
       | some a => some a
       | none => acc) := by
  induction l using List.reverseRecOn with
  | nil => intro acc; rfl
  | append_singleton l2 c ih =>
    intro acc
    rw [List.foldl_append, List.foldl_cons, List.foldl_nil, ih acc,
      List.reverse_append]
    simp only [List.reverse_singleton, List.singleton_append,
      List.findSome?_cons]
    rw [spellFold_step]
    cases hr : ruleOf (jsToString c.name) with
    | some a => rfl
    | none => rfl

/-- C7: the spellcasting ability is resolved by the keyword rule with the
last matching class in list order winning; the save DC and attack bonus are
the stated formulas over the proficiency bonus and the resolved ability's
parsed stored bonus, and with no matching class the modifier is `0`, giving
`DC = 8 + profBonus` and `attack = profBonus`. -/
theorem spellcasting_resolution (char : Tree) :
    spellcastingAbilityOf char =
      (classesInfoOf char).reverse.findSome? (fun c => ruleOf (jsToString c.name)) ∧
    spellSaveDCOf char = 8 + profBonusOf char + spellcastingModOf char ∧
    spellAttackBonusOf char = profBonusOf char + spellcastingModOf char ∧
    spellcastingModOf char =
      (match spellcastingAbilityOf char with
       | some a =>
         (match abilityOf char a with
          | some ai => (parseIntJS (jsToString ai.bonus)).getD 0
          | none => 0)
       | none => 0) ∧
    ((classesInfoOf char).reverse.findSome? (fun c => ruleOf (jsToString c.name)) = none →
      spellcastingModOf char = 0 ∧
      spellSaveDCOf char = 8 + profBonusOf char ∧
      spellAttackBonusOf char = profBonusOf char) := by
  have habil : spellcastingAbilityOf char =
      (match (classesInfoOf char).reverse.findSome?
          (fun c => ruleOf (jsToString c.name)) with
       | some a => some a
       | none => none) := by
    unfold spellcastingAbilityOf
    exact spellFold_lastMatch (classesInfoOf char) none
  have habil2 : spellcastingAbilityOf char =
      (classesInfoOf char).reverse.findSome? (fun c => ruleOf (jsToString c.name)) := by
    rw [habil]
    cases (classesInfoOf char).reverse.findSome? (fun c => ruleOf (jsToString c.name)) <;> rfl
  refine ⟨habil2, rfl, rfl, ?_, ?_⟩
  · unfold spellcastingModOf
    rfl
  · intro hnone
    have hmod : spellcastingModOf char = 0 := by
      unfold spellcastingModOf
      rw [habil2, hnone]
    refine ⟨hmod, ?_, ?_⟩
    · unfold spellSaveDCOf
      rw [hmod]
      ring
    · unfold spellAttackBonusOf
      rw [hmod]
      ring

theorem spellcasting_resolution_witness :
    spellcastingModOf fighterChar = 0 ∧
    spellSaveDCOf fighterChar = 8 + profBonusOf fighterChar ∧
    spellAttackBonusOf fighterChar = profBonusOf fighterChar ∧
    spellcastingAbilityOf fighterChar = none := by
  have h := (spellcasting_resolution fighterChar).2.2.2.2 (by decide)
  exact ⟨h.1, h.2.1, h.2.2, by decide⟩

/-- C8 counterexample: the allowed set `[A-Za-z0-9 _-]` keeps interior
spaces and only surrounding whitespace is trimmed, so the spec's example
name produces `Mra OBrien.html` (with the space), not `MraOBrien.html`. -/
theorem filename_example_counterexample :
    suggestedFilename (resultWithName "Mïra O\x27Brien!!") = "Mra OBrien.html" ∧
    ("Mra OBrien.html" : String) ≠ "MraOBrien.html" := by
  exact ⟨by decide, by decide⟩

theorem allowed_not_ws (c : Char) (h : allowedFilenameChar c = true) :
    jsWS c = decide (c = ' ') := by
  by_cases hsp : c = ' '
  · simp [hsp, jsWS]
  · have h1 : c ≠ '\t' := by rintro rfl; exact absurd h (by decide)
    have h2 : c ≠ '\n' := by rintro rfl; exact absurd h (by decide)
    have h3 : c ≠ '\r' := by rintro rfl; exact absurd h (by decide)
    have h4 : c ≠ '\x0b' := by rintro rfl; exact absurd h (by decide)
    have h5 : c ≠ '\x0c' := by rintro rfl; exact absurd h (by decide)
    simp [jsWS, hsp, h1, h2, h3, h4, h5]

theorem dropWhile_congr_of (p q : Char → Bool) :
    ∀ l : List Char, (∀ c ∈ l, p c = q c) → l.dropWhile p = l.dropWhile q := by
  intro l
  induction l with
  | nil => intro _; rfl
  | cons c t ih =>
    intro h
    simp only [List.dropWhile_cons]
    rw [h c (List.mem_cons_self c t)]
    by_cases hq : q c = true
    · rw [if_pos hq, if_pos hq]
      exact ih (fun d hd => h d (List.mem_cons_of_mem c hd))
    · rw [if_neg hq, if_neg hq]

theorem jsTrim_strip_eq_specClean (name : String) :
    jsTrim (stripDisallowed name) = String.mk (specCleanName name) := by
  unfold jsTrim stripDisallowed specCleanName
  have hd : ∀ c, c ∈ name.data.filter allowedFilenameChar →
      jsWS c = (fun c => decide (c = ' ')) c := by
    intro c hc
    exact allowed_not_ws c (List.of_mem_filter hc)
  congr 1
  rw [dropWhile_congr_of jsWS (fun c => decide (c = ' ')) _ hd]
  congr 1
  apply dropWhile_congr_of
  intro c hc
  apply allowed_not_ws
  have hc1 : c ∈ List.dropWhile (fun c => decide (c = ' '))
      (name.data.filter allowedFilenameChar) := List.mem_reverse.mp hc
  exact List.of_mem_filter
    (List.Sublist.mem hc1 (List.dropWhile_suffix _).sublist)

/-- C8 (amended): the suggested filename is the name with the characters
outside `[A-Za-z0-9 _-]` removed and surrounding spaces trimmed (interior
spaces kept), suffixed `.html`; an empty or absent name, or a name empty
after the cleanup, falls back to `character_sheet.html`.  The spec example
gives `Mra OBrien.html`. -/
theorem filename_derivation_amended :
    (∀ name : String,
      suggestedFilename (resultWithName name) =
        (if specCleanName name = [] then "character_sheet.html"
         else String.mk (specCleanName name) ++ ".html")) ∧
    suggestedFilename (resultWithName "Mïra O\x27Brien!!") = "Mra OBrien.html" ∧
    suggestedFilename (resultWithName "") = "character_sheet.html" ∧
    suggestedFilename (resultWithName "!!!") = "character_sheet.html" := by
  refine ⟨?_, by decide, by decide, by decide⟩
  intro name
  have hsg : safeGet (resultWithName name) "root.character.0.name.0" (.str "") =
      if truthy (.str name) = true then .str name else .str "" := rfl
  unfold suggestedFilename
  rw [hsg]
  by_cases hname : name = ""
  · subst hname
    rfl
  · have ht : truthy (.str name) = true := by
      simp [truthy, hname]
    simp only [ht, eq_self_iff_true, if_true, ite_true, jsToString,
      jsTrim_strip_eq_specClean]
    by_cases hcl : specCleanName name = []
    · simp [hcl]
    · have hne : String.mk (specCleanName name) ≠ "" :=
        fun h => hcl (congrArg String.data h)
      simp [hcl, hne]

/-- C10: extraction and rendering are read-only — the state-passing
translations of `safeGet` and `generateCharacterHTML` return the input tree
structurally unchanged. -/
theorem extraction_is_readonly :
    (∀ (t : Tree) (path : String) (d : Tree), (safeGetT t path d).2 = t) ∧
    (∀ t : Tree, (generateCharacterHTMLT t).2 = t) :=
  ⟨fun _ _ _ => rfl, fun _ => rfl⟩

theorem strAppend_assoc (a b c : String) : a ++ b ++ c = a ++ (b ++ c) := by
  cases a with | mk la =>
  cases b with | mk lb =>
  cases c with | mk lc =>
  show String.mk (la ++ lb ++ lc) = String.mk (la ++ (lb ++ lc))
  rw [List.append_assoc]

theorem containsSub_appendL (a : String) {s sub : String}
    (h : ContainsSub s sub) : ContainsSub (a ++ s) sub := by
  obtain ⟨p, q, hp⟩ := h
  exact ⟨a ++ p, q, by rw [hp]; simp only [strAppend_assoc]⟩

theorem containsSub_appendR (t : String) {s sub : String}
    (h : ContainsSub s sub) : ContainsSub (s ++ t) sub := by
  obtain ⟨p, q, hp⟩ := h
  exact ⟨p, q ++ t, by rw [hp]; simp only [strAppend_assoc]⟩

theorem hpCombat_contains_raw_quote :
    ContainsSub (hpCombatHtml xssChar) "value=\"\"\"" := by
  unfold hpCombatHtml
  rw [show hpWoundsOf xssChar = Tree.str "\"" from rfl]
  rw [show jsToString (Tree.str "\"") = "\"" from rfl]
  apply containsSub_appendR
  apply containsSub_appendR
  apply containsSub_appendR
  apply containsSub_appendR
  apply containsSub_appendR
  apply containsSub_appendR
  apply containsSub_appendR
  apply containsSub_appendR
  apply containsSub_appendR
  apply containsSub_appendR
  apply containsSub_appendR
  apply containsSub_appendR
  refine ⟨tpl750p0 ++ escapeHtml (hpTotalOf xssChar) ++ tpl750p1front,
    tpl750p2rest, ?_⟩
  rw [show tpl750p1 = tpl750p1front ++ "value=\"" from rfl]
  rw [show tpl750p2 = "\"" ++ tpl750p2rest from rfl]
  rw [show ("value=\"\"\"" : String) = "value=\"" ++ "\"" ++ "\"" from rfl]
  simp only [strAppend_assoc]

/-- C1: the HP `wounds` (and `temporary`) fields are interpolated into the
`value="..."` attributes without passing through `escapeHtml`, so a
double-quote stored in the wounds field reaches the rendered output as a
literal quote (the output contains `value="""`), violating the claimed
escaping invariant; `escapeHtml` itself would have produced `&quot;`. -/
theorem unescaped_hpWounds :
    ContainsSub (generateCharacterHTML xssTree) "value=\"\"\"" ∧
    escapeHtml (.str "\"") = "&quot;" := by
  constructor
  · unfold generateCharacterHTML
    rw [show safeGet xssTree "character" (.map []) = xssChar from rfl]
    apply containsSub_appendR
    apply containsSub_appendR
    apply containsSub_appendR
    apply containsSub_appendR
    apply containsSub_appendR
    apply containsSub_appendR
    apply containsSub_appendR
    apply containsSub_appendR
    apply containsSub_appendR
    apply containsSub_appendR
    apply containsSub_appendR
    apply containsSub_appendR
    apply containsSub_appendL
    exact hpCombat_contains_raw_quote
  · rfl

end FGU
